import Mathlib

/-!
Verification of the path driver `lasso_path` in `gsroptim/lasso.py`
(repository Gap_Safe_Rules).

The driver sequences calls to the coordinate-descent solver `cd_lasso`
(compiled module `cd_lasso_fast`, not part of the Python source tree) over a
lambda grid, threading warm-start state between calls.  We embed the driver
shallowly: vectors are `List ℚ`, the dense/sparse feature matrix is a list of
rows together with an `isSparse` flag, and the external solver is an abstract
function `Solver`.  Every solver invocation made by the driver is recorded in
a call log so that theorems can speak about the exact sequence of calls, the
arguments passed, and the results consumed.
-/

/-- Screening mode `NO_SCREENING = 0` (lasso.py line 8). -/
def NO_SCREENING : ℕ := 0

/-- Screening mode `GAPSAFE_SEQ = 1` (lasso.py line 9). -/
def GAPSAFE_SEQ : ℕ := 1

/-- Screening mode `GAPSAFE = 2` (lasso.py line 10). -/
def GAPSAFE : ℕ := 2

/-- Dot product of two vectors, `a.dot(b)`. -/
def dot (a b : List ℚ) : ℚ := (List.zipWith (· * ·) a b).sum

/-- Matrix–vector product `X.dot(v)` for a row-list matrix. -/
def matVec (rows : List (List ℚ)) (v : List ℚ) : List ℚ :=
  rows.map (fun r => dot r v)

/-- Column `j` of a row-list matrix. -/
def col (rows : List (List ℚ)) (j : ℕ) : List ℚ :=
  rows.map (fun r => r.getD j 0)

/-- Arithmetic mean of a vector, `v.mean()`. -/
def mean (v : List ℚ) : ℚ := v.sum / v.length

/-- Column means `X.mean(axis=0)` (lasso.py line 104). -/
def colMeans (rows : List (List ℚ)) : List ℚ :=
  (List.range (rows.headD []).length).map (fun j => mean (col rows j))

/-- In-place centering `X -= X_mean` of a dense matrix (lasso.py line 108). -/
def centerCols (rows : List (List ℚ)) : List (List ℚ) :=
  rows.map (fun r => List.zipWith (· - ·) r (colMeans rows))

/-- Squared Euclidean norm, `norm(v) ** 2` (lasso.py line 137). -/
def normSq (v : List ℚ) : ℚ := dot v v

/-- The strong-active-warm-start mask
`(np.abs(XTR) < thr).astype(np.intc)` (lasso.py lines 147-148). -/
def strongMask (XTR : List ℚ) (thr : ℚ) : List Bool :=
  XTR.map (fun x => decide (|x| < thr))

/-- The `lambdas` argument of `lasso_path`: a numpy array of reals, a plain
scalar, or a Python list (any non-`ndarray` value is wrapped by line 79). -/
inductive LambdasArg where
  | ndarray (l : List ℚ)
  | scalar (x : ℚ)
  | pylist (l : List ℚ)

/-- One entry of the lambda grid after the wrapping at lines 78-79: a scalar,
or — when a Python list was wrapped by `np.array([lambdas])` — the whole list
as a single row entry of the resulting `(1, k)` array. -/
inductive LambdaEntry where
  | scalar (x : ℚ)
  | vector (l : List ℚ)

/-- Lines 78-79: `if type(lambdas) != np.ndarray: lambdas = np.array([lambdas])`.
An ndarray is kept as is; any other value becomes a length-1 array holding
that value (a scalar gives `[x]`; a Python list gives a `(1, k)` array whose
length along axis 0 is 1). -/
def normalizeLambdas : LambdasArg → List LambdaEntry
  | .ndarray l => l.map .scalar
  | .scalar x => [.scalar x]
  | .pylist l => [.vector l]

/-- The scalar value of a grid entry (a wrapped Python list has no scalar
value; its row is not a usable lambda and is mapped to 0 here). -/
def entryScalar : LambdaEntry → ℚ
  | .scalar x => x
  | .vector _ => 0

/-- The per-call varying arguments of one `cd_lasso` invocation
(lasso.py lines 155-160 and 162-166).  The arrays that never change across
calls (`X`, `y`, `X_mean`, `norm_Xcent`, `nrm2_y`, the `sparse`/`center`
flags) are captured in the `Solver` closure. -/
structure SolverCall where
  lam : ℚ
  tol : ℚ
  maxIter : ℕ
  f : ℕ
  screening : ℕ
  wstrPlus : Bool
  deriving DecidableEq, Repr

/-- The mutable state handed to (and updated in place by) `cd_lasso`:
`beta_init`, `XTR`, `residual`, `disabled_features`, and the threaded
`sum_residual`. -/
structure SolverState where
  beta : List ℚ
  XTR : List ℚ
  residual : List ℚ
  disabled : List Bool
  sumResidual : ℚ
  deriving DecidableEq, Repr

/-- What one `cd_lasso` call produces: the updated in-place state plus the
returned tuple `(gap, sum_residual, n_iter, n_active_features)`
(`sum_residual` is carried inside `state`). -/
structure SolverOut where
  state : SolverState
  gap : ℚ
  nIter : ℕ
  nActive : ℕ
  deriving DecidableEq, Repr

/-- The external coordinate-descent solver `cd_lasso`, abstracted as a
function of the per-call arguments and the mutable state. -/
def Solver : Type := SolverCall → SolverState → SolverOut

/-- One record of a solver invocation made by the driver: the lambda index
`idx` of the path position, the call arguments, the input state, and the
output. -/
structure LogEntry where
  idx : ℕ
  call : SolverCall
  input : SolverState
  out : SolverOut
  deriving DecidableEq, Repr

/-- A default log entry, used as the `getD` fallback when indexing logs. -/
def dummyEntry : LogEntry :=
  { idx := 0
    call := { lam := 0, tol := 0, maxIter := 0, f := 0, screening := 0, wstrPlus := false }
    input := { beta := [], XTR := [], residual := [], disabled := [], sumResidual := 0 }
    out := { state := { beta := [], XTR := [], residual := [], disabled := [], sumResidual := 0 }
             gap := 0, nIter := 0, nActive := 0 } }

/-- The loop-invariant configuration of a path fit: the scalar lambda grid,
`n_features`, the duality-gap tolerance `tol = eps * norm(y) ** 2`
(line 140), and the flags read inside the loop. -/
structure LoopCtx where
  lams : List ℚ
  nF : ℕ
  eps : ℚ
  tol : ℚ
  yMean : ℚ
  XMean : List ℚ
  screening : ℕ
  maxIter : ℕ
  f : ℕ
  fitIntercept : Bool
  gapAWS : Bool
  strongAWS : Bool

/-- The driver's state across loop iterations: the solver-visible mutable
state, the persistent `run_active_warm_start` flag (line 100), the output
arrays (lines 84, 91-95), the warnings issued so far (lines 175-178), and
the log of solver invocations. -/
structure PathState where
  core : SolverState
  runAWS : Bool
  gapsArr : List ℚ
  nItersArr : List ℚ
  nActiveArr : List ℚ
  betasArr : List (List ℚ)
  interceptsArr : List ℚ
  warnings : List (ℕ × ℚ × ℚ)
  callLog : List LogEntry

/-- `active_warm_start and t != 0` (lines 99, 144). -/
def awsActive (c : LoopCtx) (t : ℕ) : Bool :=
  (c.strongAWS || c.gapAWS) && !(t == 0)

/-- The mask assigned at lines 146-148 when `strong_active_warm_start` holds:
`(np.abs(XTR) < 2. * lambdas[t] - lambdas[t - 1]).astype(np.intc)`;
otherwise the mask is left as it was. -/
def preMask (c : LoopCtx) (t : ℕ) (s : PathState) : List Bool :=
  if c.strongAWS then
    strongMask s.core.XTR (2 * c.lams.getD t 0 - c.lams.getD (t - 1) 0)
  else s.core.disabled

/-- Lines 150-151: when `gap_active_warm_start` holds,
`run_active_warm_start = n_active_features[t] < n_features`; otherwise the
flag keeps its previous value. -/
def preRun (c : LoopCtx) (t : ℕ) (s : PathState) : Bool :=
  if c.gapAWS then decide (s.nActiveArr.getD t 0 < (c.nF : ℚ)) else s.runAWS

/-- The warm-start probe call of lines 155-160 (`wstr_plus=1`). -/
def probeCall (c : LoopCtx) (t : ℕ) : SolverCall :=
  { lam := c.lams.getD t 0, tol := c.tol, maxIter := c.maxIter, f := c.f
    screening := c.screening, wstrPlus := true }

/-- The authoritative call of lines 162-166 (`wstr_plus=0`). -/
def authCall (c : LoopCtx) (t : ℕ) : SolverCall :=
  { lam := c.lams.getD t 0, tol := c.tol, maxIter := c.maxIter, f := c.f
    screening := c.screening, wstrPlus := false }

/-- Lines 144-160: the pre-solve phase of one loop iteration.  When
`active_warm_start and t != 0`, the mask is (possibly) reassigned by the
strong heuristic, the `run_active_warm_start` flag is (possibly) recomputed
from the gap heuristic, and if the flag holds a probe `cd_lasso` call is made
whose in-place effects (and returned `sum_residual`) are kept while its gap,
iteration and active counts are discarded. -/
def preState (solver : Solver) (c : LoopCtx) (t : ℕ) (s : PathState) : PathState :=
  if awsActive c t then
    if preRun c t s then
      { s with
        core := (solver (probeCall c t) { s.core with disabled := preMask c t s }).state
        runAWS := preRun c t s
        callLog := s.callLog ++
          [{ idx := t, call := probeCall c t
             input := { s.core with disabled := preMask c t s }
             out := solver (probeCall c t) { s.core with disabled := preMask c t s } }] }
    else
      { s with core := { s.core with disabled := preMask c t s }, runAWS := preRun c t s }
  else s

/-- The output of the authoritative `cd_lasso` call at index `t`
(lines 162-166), applied to the state left by the pre-solve phase. -/
def authOut (solver : Solver) (c : LoopCtx) (t : ℕ) (s : PathState) : SolverOut :=
  solver (authCall c t) (preState solver c t s).core

/-- Lines 142-178: one full iteration of the path loop at lambda index `t`.
After the pre-solve phase, the authoritative solve runs; its gap, iteration
count and active count are stored at index `t` (lines 162-166), the
coefficient column is stored (line 168), the intercept is computed when
centering (lines 169-170), the active count at index 0 is forced to 0 when
screening is enabled (lines 172-173), and a non-fatal warning `(t, gap, eps)`
is recorded when `abs(gaps[t]) > tol` (lines 175-178). -/
def lassoStep (solver : Solver) (c : LoopCtx) (t : ℕ) (s : PathState) : PathState :=
  { core := (authOut solver c t s).state
    runAWS := (preState solver c t s).runAWS
    gapsArr := (preState solver c t s).gapsArr.set t (authOut solver c t s).gap
    nItersArr := (preState solver c t s).nItersArr.set t ((authOut solver c t s).nIter : ℚ)
    nActiveArr :=
      if t = 0 ∧ c.screening ≠ NO_SCREENING then
        (((preState solver c t s).nActiveArr.set t ((authOut solver c t s).nActive : ℚ)).set 0 0)
      else
        (preState solver c t s).nActiveArr.set t ((authOut solver c t s).nActive : ℚ)
    betasArr := (preState solver c t s).betasArr.set t (authOut solver c t s).state.beta
    interceptsArr :=
      if c.fitIntercept then
        (preState solver c t s).interceptsArr.set t
          (c.yMean - dot c.XMean (authOut solver c t s).state.beta)
      else (preState solver c t s).interceptsArr
    warnings :=
      if |(authOut solver c t s).gap| > c.tol then
        (preState solver c t s).warnings ++ [(t, (authOut solver c t s).gap, c.eps)]
      else (preState solver c t s).warnings
    callLog := (preState solver c t s).callLog ++
      [{ idx := t, call := authCall c t, input := (preState solver c t s).core
         out := authOut solver c t s }] }

/-- `for t in range(n_lambdas)` (line 142): iterate `lassoStep` over `k`
consecutive indices starting at `t`. -/
def lassoLoop (solver : Solver) (c : LoopCtx) : ℕ → ℕ → PathState → PathState
  | _, 0, s => s
  | t, k + 1, s => lassoLoop solver c (t + 1) k (lassoStep solver c t s)

/-- `y` after the optional in-place centering `y -= y_mean`
(lines 102-106). -/
def centerY (y : List ℚ) (center : Bool) : List ℚ :=
  if center then y.map (fun v => v - mean y) else y

/-- `X` after the optional in-place centering `X -= X_mean`, which is applied
only to a dense matrix (lines 107-108); a sparse matrix's stored data is
never modified. -/
def centerX (X : List (List ℚ)) (center isSparse : Bool) : List (List ℚ) :=
  if center && !isSparse then centerCols X else X

/-- The configuration threaded through the loop, computed by the setup code
of `lasso_path` (lines 83, 97-140). -/
def pathCtx (X : List (List ℚ)) (y : List ℚ) (lambdas : LambdasArg)
    (fitIntercept : Bool) (eps : ℚ) (maxIter : ℕ) (screening : ℕ) (f : ℕ)
    (gapAWS strongAWS : Bool) : LoopCtx :=
  { lams := (normalizeLambdas lambdas).map entryScalar
    nF := (X.headD []).length
    eps := eps
    tol := eps * normSq (centerY y fitIntercept)
    yMean := mean y
    XMean := colMeans X
    screening := screening
    maxIter := maxIter
    f := f
    fitIntercept := fitIntercept
    gapAWS := gapAWS
    strongAWS := strongAWS }

/-- The driver state just before the loop (lines 84-140): `beta_init`
defaulted to zeros, the arrays allocated (`gaps` as ones, the rest zeros),
the mask all clear, residual and correlation computed from the (possibly
centered) data, `sum_residual` nonzero only in the sparse centered case. -/
def pathInit (X : List (List ℚ)) (y : List ℚ) (lambdas : LambdasArg)
    (betaInit : Option (List ℚ)) (fitIntercept : Bool) (isSparse : Bool) : PathState :=
  { core :=
      { beta := betaInit.getD (List.replicate (X.headD []).length 0)
        XTR := (List.range (X.headD []).length).map (fun j =>
          dot (col (centerX X fitIntercept isSparse) j)
            (if isSparse && fitIntercept then
              (List.zipWith (· - ·) (centerY y fitIntercept)
                (matVec (centerX X fitIntercept isSparse)
                  (betaInit.getD (List.replicate (X.headD []).length 0)))).map
                (fun v => v + dot (colMeans X)
                  (betaInit.getD (List.replicate (X.headD []).length 0)))
            else
              List.zipWith (· - ·) (centerY y fitIntercept)
                (matVec (centerX X fitIntercept isSparse)
                  (betaInit.getD (List.replicate (X.headD []).length 0)))))
        residual :=
          if isSparse && fitIntercept then
            (List.zipWith (· - ·) (centerY y fitIntercept)
              (matVec (centerX X fitIntercept isSparse)
                (betaInit.getD (List.replicate (X.headD []).length 0)))).map
              (fun v => v + dot (colMeans X)
                (betaInit.getD (List.replicate (X.headD []).length 0)))
          else
            List.zipWith (· - ·) (centerY y fitIntercept)
              (matVec (centerX X fitIntercept isSparse)
                (betaInit.getD (List.replicate (X.headD []).length 0)))
        disabled := List.replicate (X.headD []).length false
        sumResidual :=
          if isSparse && fitIntercept then
            ((List.zipWith (· - ·) (centerY y fitIntercept)
              (matVec (centerX X fitIntercept isSparse)
                (betaInit.getD (List.replicate (X.headD []).length 0)))).map
              (fun v => v + dot (colMeans X)
                (betaInit.getD (List.replicate (X.headD []).length 0)))).sum
          else 0 }
    runAWS := true
    gapsArr := List.replicate (normalizeLambdas lambdas).length 1
    nItersArr := List.replicate (normalizeLambdas lambdas).length 0
    nActiveArr := List.replicate (normalizeLambdas lambdas).length 0
    betasArr := List.replicate (normalizeLambdas lambdas).length
      (List.replicate (X.headD []).length 0)
    interceptsArr := List.replicate (normalizeLambdas lambdas).length 0
    warnings := []
    callLog := [] }

/-- The values returned by `lasso_path` (line 180), extended with the
warnings channel, the solver call log, and the caller-visible `X` and `y`
arrays after the call (the in-place centering of lines 106-108 mutates the
caller's arrays). -/
structure PathOutput where
  intercepts : List ℚ
  betas : List (List ℚ)
  gaps : List ℚ
  nIters : List ℚ
  nActive : List ℚ
  warnings : List (ℕ × ℚ × ℚ)
  callLog : List LogEntry
  Xout : List (List ℚ)
  yout : List ℚ

/-- `lasso_path(X, y, lambdas, beta_init, fit_intercept, eps, max_iter,
screening, f, gap_active_warm_start, strong_active_warm_start)`
(lasso.py lines 13-180), with the solver abstracted and the sparsity of `X`
given by the `isSparse` flag (`sp.sparse.issparse(X)`, line 97). -/
def lasso_path (solver : Solver) (X : List (List ℚ)) (y : List ℚ)
    (lambdas : LambdasArg) (betaInit : Option (List ℚ)) (fitIntercept : Bool)
    (eps : ℚ) (maxIter : ℕ) (screening : ℕ) (f : ℕ)
    (gapAWS strongAWS : Bool) (isSparse : Bool) : PathOutput :=
  { intercepts := (lassoLoop solver
      (pathCtx X y lambdas fitIntercept eps maxIter screening f gapAWS strongAWS)
      0 (normalizeLambdas lambdas).length
      (pathInit X y lambdas betaInit fitIntercept isSparse)).interceptsArr
    betas := (lassoLoop solver
      (pathCtx X y lambdas fitIntercept eps maxIter screening f gapAWS strongAWS)
      0 (normalizeLambdas lambdas).length
      (pathInit X y lambdas betaInit fitIntercept isSparse)).betasArr
    gaps := (lassoLoop solver
      (pathCtx X y lambdas fitIntercept eps maxIter screening f gapAWS strongAWS)
      0 (normalizeLambdas lambdas).length
      (pathInit X y lambdas betaInit fitIntercept isSparse)).gapsArr
    nIters := (lassoLoop solver
      (pathCtx X y lambdas fitIntercept eps maxIter screening f gapAWS strongAWS)
      0 (normalizeLambdas lambdas).length
      (pathInit X y lambdas betaInit fitIntercept isSparse)).nItersArr
    nActive := (lassoLoop solver
      (pathCtx X y lambdas fitIntercept eps maxIter screening f gapAWS strongAWS)
      0 (normalizeLambdas lambdas).length
      (pathInit X y lambdas betaInit fitIntercept isSparse)).nActiveArr
    warnings := (lassoLoop solver
      (pathCtx X y lambdas fitIntercept eps maxIter screening f gapAWS strongAWS)
      0 (normalizeLambdas lambdas).length
      (pathInit X y lambdas betaInit fitIntercept isSparse)).warnings
    callLog := (lassoLoop solver
      (pathCtx X y lambdas fitIntercept eps maxIter screening f gapAWS strongAWS)
      0 (normalizeLambdas lambdas).length
      (pathInit X y lambdas betaInit fitIntercept isSparse)).callLog
    Xout := centerX X fitIntercept isSparse
    yout := centerY y fitIntercept }

/-- A trivial concrete solver used for witnesses and counterexamples: it
leaves the state untouched and reports gap 0, iteration count 0, and zero
remaining active features. -/
def zeroSolver : Solver := fun _ s => { state := s, gap := 0, nIter := 0, nActive := 0 }

/-- Modelled from the spec: the compiled kernel `cd_lasso` (module
`cd_lasso_fast`, absent from the Python source tree) resets the
disabled-features mask at the start of each authoritative (`wstr_plus=0`)
solve — per the spec's lifecycle requirement that "the disabled-features
mask is reset/recomputed at the start of each lambda's solve".  The wrapper
applies the reset before handing the state to the underlying solver core; a
probe call (`wstr_plus=1`) keeps the seeded mask. -/
def cdLassoSpec (core : Solver) : Solver := fun c s =>
  if c.wstrPlus then core c s
  else core c { s with disabled := List.replicate s.disabled.length false }

/-- The log record of the probe call a pre-solve phase would make at index
`t` from state `s`. -/
def probeEntry (solver : Solver) (c : LoopCtx) (t : ℕ) (s : PathState) : LogEntry :=
  { idx := t, call := probeCall c t
    input := { s.core with disabled := preMask c t s }
    out := solver (probeCall c t) { s.core with disabled := preMask c t s } }

/-- The log records appended by the pre-solve phase: one probe entry when
the phase is active and `run_active_warm_start` holds, none otherwise. -/
def preEntries (solver : Solver) (c : LoopCtx) (t : ℕ) (s : PathState) : List LogEntry :=
  if awsActive c t && preRun c t s then [probeEntry solver c t s] else []

/-- The log record of the authoritative call at index `t`. -/
def authEntry (solver : Solver) (c : LoopCtx) (t : ℕ) (s : PathState) : LogEntry :=
  { idx := t, call := authCall c t, input := (preState solver c t s).core
    out := authOut solver c t s }

/-- All log records appended by loop iteration `t`: the optional probe entry
followed by the authoritative entry. -/
def stepEntries (solver : Solver) (c : LoopCtx) (t : ℕ) (s : PathState) : List LogEntry :=
  preEntries solver c t s ++ [authEntry solver c t s]

/-- Loop invariant after `k` processed lambda indices (out of `n`): the
diagnostic arrays keep their allocated length, every warning on record names
a processed index, carries the final stored gap for that index together with
the caller's `eps`, and was issued exactly because `abs(gap) > tol`;
conversely every processed index whose stored gap exceeds `tol` has its
warning on record; and the active-count entries of indices not yet processed
still hold their initial value 0. -/
structure PathInv (c : LoopCtx) (n k : ℕ) (s : PathState) : Prop where
  lenGaps : s.gapsArr.length = n
  lenActive : s.nActiveArr.length = n
  warnSound : ∀ w ∈ s.warnings,
    w.2.2 = c.eps ∧ w.1 < k ∧ w.2.1 = s.gapsArr.getD w.1 0 ∧ |w.2.1| > c.tol
  warnComplete : ∀ t, t < k → |s.gapsArr.getD t 0| > c.tol →
    (t, s.gapsArr.getD t 0, c.eps) ∈ s.warnings
  activeHi : ∀ t, k ≤ t → s.nActiveArr.getD t 0 = 0

/-! ## List index helper lemmas -/

theorem getD_set_ne {α : Type} (l : List α) (i j : ℕ) (a d : α) (h : i ≠ j) :
    (l.set i a).getD j d = l.getD j d := by
  induction l generalizing i j with
  | nil => simp [List.set]
  | cons x xs ih =>
    cases i with
    | zero =>
      cases j with
      | zero => exact absurd rfl h
      | succ j => simp [List.set, List.getD]
    | succ i =>
      cases j with
      | zero => simp [List.set, List.getD]
      | succ j =>
        simp only [List.set, List.getD_cons_succ]
        exact ih i j (fun hij => h (by rw [hij]))

theorem getD_set_self {α : Type} (l : List α) (i : ℕ) (a d : α) (h : i < l.length) :
    (l.set i a).getD i d = a := by
  induction l generalizing i with
  | nil => simp at h
  | cons x xs ih =>
    cases i with
    | zero => simp [List.set, List.getD]
    | succ i =>
      simp only [List.set, List.getD_cons_succ]
      exact ih i (by simpa using h)

theorem getD_replicate_zero (n t : ℕ) : (List.replicate n (0 : ℚ)).getD t 0 = 0 := by
  induction n generalizing t with
  | zero => simp [List.getD]
  | succ n ih =>
    cases t with
    | zero => simp [List.replicate]
    | succ t => simp [List.replicate, List.getD_cons_succ, ih t]

/-! ## Structure of one loop iteration -/

theorem preState_gaps (solver : Solver) (c : LoopCtx) (t : ℕ) (s : PathState) :
    (preState solver c t s).gapsArr = s.gapsArr := by
  unfold preState
  split
  · split <;> rfl
  · rfl

theorem preState_nIters (solver : Solver) (c : LoopCtx) (t : ℕ) (s : PathState) :
    (preState solver c t s).nItersArr = s.nItersArr := by
  unfold preState
  split
  · split <;> rfl
  · rfl

theorem preState_nActive (solver : Solver) (c : LoopCtx) (t : ℕ) (s : PathState) :
    (preState solver c t s).nActiveArr = s.nActiveArr := by
  unfold preState
  split
  · split <;> rfl
  · rfl

theorem preState_betas (solver : Solver) (c : LoopCtx) (t : ℕ) (s : PathState) :
    (preState solver c t s).betasArr = s.betasArr := by
  unfold preState
  split
  · split <;> rfl
  · rfl

theorem preState_intercepts (solver : Solver) (c : LoopCtx) (t : ℕ) (s : PathState) :
    (preState solver c t s).interceptsArr = s.interceptsArr := by
  unfold preState
  split
  · split <;> rfl
  · rfl

theorem preState_warnings (solver : Solver) (c : LoopCtx) (t : ℕ) (s : PathState) :
    (preState solver c t s).warnings = s.warnings := by
  unfold preState
  split
  · split <;> rfl
  · rfl

theorem preState_core_beta (solver : Solver) (c : LoopCtx) (t : ℕ) (s : PathState)
    (h : ¬(awsActive c t = true ∧ preRun c t s = true)) :
    (preState solver c t s).core.beta = s.core.beta := by
  unfold preState
  split
  · rename_i ha
    split
    · rename_i hr; exact absurd ⟨ha, hr⟩ h
    · rfl
  · rfl

/-! ## Call-log structure of the loop -/

theorem preState_log (solver : Solver) (c : LoopCtx) (t : ℕ) (s : PathState) :
    (preState solver c t s).callLog = s.callLog ++ preEntries solver c t s := by
  unfold preState preEntries probeEntry
  by_cases ha : awsActive c t = true
  · by_cases hr : preRun c t s = true
    · simp [ha, hr]
    · have hr' : preRun c t s = false := by simpa using hr
      simp [ha, hr']
  · have ha' : awsActive c t = false := by simpa using ha
    simp [ha']

theorem step_callLog (solver : Solver) (c : LoopCtx) (t : ℕ) (s : PathState) :
    (lassoStep solver c t s).callLog = s.callLog ++ stepEntries solver c t s := by
  show (preState solver c t s).callLog ++ [authEntry solver c t s] =
    s.callLog ++ stepEntries solver c t s
  rw [preState_log, stepEntries, List.append_assoc]

theorem stepEntries_idx (solver : Solver) (c : LoopCtx) (t : ℕ) (s : PathState) :
    ∀ e ∈ stepEntries solver c t s, e.idx = t := by
  intro e he
  unfold stepEntries preEntries at he
  rcases List.mem_append.mp he with h | h
  · split at h
    · simp only [List.mem_singleton] at h
      subst h; rfl
    · simp at h
  · simp only [List.mem_singleton] at h
    subst h; rfl

theorem stepEntries_ne_nil (solver : Solver) (c : LoopCtx) (t : ℕ) (s : PathState) :
    stepEntries solver c t s ≠ [] := by
  unfold stepEntries
  simp

theorem lassoLoop_zero (solver : Solver) (c : LoopCtx) (t : ℕ) (s : PathState) :
    lassoLoop solver c t 0 s = s := rfl

theorem lassoLoop_succ (solver : Solver) (c : LoopCtx) (t k : ℕ) (s : PathState) :
    lassoLoop solver c t (k + 1) s = lassoLoop solver c (t + 1) k (lassoStep solver c t s) := rfl

theorem lassoLoop_split (solver : Solver) (c : LoopCtx) (a b t : ℕ) (s : PathState) :
    lassoLoop solver c t (a + b) s =
      lassoLoop solver c (t + a) b (lassoLoop solver c t a s) := by
  induction a generalizing t s with
  | zero => simp [lassoLoop_zero]
  | succ a ih =>
    have h1 : a + 1 + b = (a + b) + 1 := by omega
    rw [h1, lassoLoop_succ, lassoLoop_succ, ih]
    have h2 : t + 1 + a = t + (a + 1) := by omega
    rw [h2]

theorem lassoLoop_log (solver : Solver) (c : LoopCtx) (m : ℕ) :
    ∀ (a : ℕ) (s : PathState), ∃ l,
      (lassoLoop solver c a m s).callLog = s.callLog ++ l ∧
      (∀ e ∈ l, a ≤ e.idx ∧ e.idx < a + m) ∧
      (0 < m → l ≠ []) := by
  induction m with
  | zero =>
    intro a s
    exact ⟨[], by simp [lassoLoop_zero], by simp, by simp⟩
  | succ m ih =>
    intro a s
    obtain ⟨l, hl, hb, _⟩ := ih (a + 1) (lassoStep solver c a s)
    refine ⟨stepEntries solver c a s ++ l, ?_, ?_, ?_⟩
    · rw [lassoLoop_succ, hl, step_callLog, List.append_assoc]
    · intro e he
      rcases List.mem_append.mp he with h | h
      · have := stepEntries_idx solver c a s e h
        omega
      · have := hb e h
        omega
    · intro _
      simp [stepEntries_ne_nil solver c a s]

theorem lassoLoop_log_mono (solver : Solver) (c : LoopCtx) (m a : ℕ) (s : PathState)
    (e : LogEntry) (he : e ∈ s.callLog) : e ∈ (lassoLoop solver c a m s).callLog := by
  obtain ⟨l, hl, _, _⟩ := lassoLoop_log solver c m a s
  rw [hl]
  exact List.mem_append_left l he

/-! ## Array bookkeeping of the loop -/

theorem step_gaps_getD_ne (solver : Solver) (c : LoopCtx) (t : ℕ) (s : PathState)
    (j : ℕ) (d : ℚ) (h : j ≠ t) :
    (lassoStep solver c t s).gapsArr.getD j d = s.gapsArr.getD j d := by
  show ((preState solver c t s).gapsArr.set t (authOut solver c t s).gap).getD j d = _
  rw [getD_set_ne _ _ _ _ _ (fun ht => h ht.symm), preState_gaps]

theorem step_nActive_getD_ne (solver : Solver) (c : LoopCtx) (t : ℕ) (s : PathState)
    (j : ℕ) (d : ℚ) (h : j ≠ t) (h0 : j ≠ 0) :
    (lassoStep solver c t s).nActiveArr.getD j d = s.nActiveArr.getD j d := by
  show (if t = 0 ∧ c.screening ≠ NO_SCREENING then
      (((preState solver c t s).nActiveArr.set t ((authOut solver c t s).nActive : ℚ)).set 0 0)
    else
      (preState solver c t s).nActiveArr.set t ((authOut solver c t s).nActive : ℚ)).getD j d = _
  split
  · rw [getD_set_ne _ _ _ _ _ (fun hz => h0 hz.symm),
      getD_set_ne _ _ _ _ _ (fun ht => h ht.symm), preState_nActive]
  · rw [getD_set_ne _ _ _ _ _ (fun ht => h ht.symm), preState_nActive]

theorem step_betas_getD_ne (solver : Solver) (c : LoopCtx) (t : ℕ) (s : PathState)
    (j : ℕ) (d : List ℚ) (h : j ≠ t) :
    (lassoStep solver c t s).betasArr.getD j d = s.betasArr.getD j d := by
  show ((preState solver c t s).betasArr.set t (authOut solver c t s).state.beta).getD j d = _
  rw [getD_set_ne _ _ _ _ _ (fun ht => h ht.symm), preState_betas]

theorem step_intercepts_getD_ne (solver : Solver) (c : LoopCtx) (t : ℕ) (s : PathState)
    (j : ℕ) (d : ℚ) (h : j ≠ t) :
    (lassoStep solver c t s).interceptsArr.getD j d = s.interceptsArr.getD j d := by
  show (if c.fitIntercept then
      (preState solver c t s).interceptsArr.set t
        (c.yMean - dot c.XMean (authOut solver c t s).state.beta)
    else (preState solver c t s).interceptsArr).getD j d = _
  split
  · rw [getD_set_ne _ _ _ _ _ (fun ht => h ht.symm), preState_intercepts]
  · rw [preState_intercepts]

theorem step_gaps_len (solver : Solver) (c : LoopCtx) (t : ℕ) (s : PathState) :
    (lassoStep solver c t s).gapsArr.length = s.gapsArr.length := by
  show ((preState solver c t s).gapsArr.set t (authOut solver c t s).gap).length = _
  rw [List.length_set, preState_gaps]

theorem step_nActive_len (solver : Solver) (c : LoopCtx) (t : ℕ) (s : PathState) :
    (lassoStep solver c t s).nActiveArr.length = s.nActiveArr.length := by
  show (if t = 0 ∧ c.screening ≠ NO_SCREENING then
      (((preState solver c t s).nActiveArr.set t ((authOut solver c t s).nActive : ℚ)).set 0 0)
    else
      (preState solver c t s).nActiveArr.set t ((authOut solver c t s).nActive : ℚ)).length = _
  split
  · rw [List.length_set, List.length_set, preState_nActive]
  · rw [List.length_set, preState_nActive]

theorem step_betas_len (solver : Solver) (c : LoopCtx) (t : ℕ) (s : PathState) :
    (lassoStep solver c t s).betasArr.length = s.betasArr.length := by
  show ((preState solver c t s).betasArr.set t (authOut solver c t s).state.beta).length = _
  rw [List.length_set, preState_betas]

theorem step_intercepts_len (solver : Solver) (c : LoopCtx) (t : ℕ) (s : PathState) :
    (lassoStep solver c t s).interceptsArr.length = s.interceptsArr.length := by
  show (if c.fitIntercept then
      (preState solver c t s).interceptsArr.set t
        (c.yMean - dot c.XMean (authOut solver c t s).state.beta)
    else (preState solver c t s).interceptsArr).length = _
  split
  · rw [List.length_set, preState_intercepts]
  · rw [preState_intercepts]

theorem loop_gaps_getD_lo (solver : Solver) (c : LoopCtx) (m : ℕ) :
    ∀ (a : ℕ) (s : PathState) (j : ℕ) (d : ℚ), j < a →
      (lassoLoop solver c a m s).gapsArr.getD j d = s.gapsArr.getD j d := by
  induction m with
  | zero => intro a s j d _; rw [lassoLoop_zero]
  | succ m ih =>
    intro a s j d hj
    rw [lassoLoop_succ, ih (a + 1) _ j d (by omega),
      step_gaps_getD_ne _ _ _ _ _ _ (by omega)]

theorem loop_nActive_getD_lo (solver : Solver) (c : LoopCtx) (m : ℕ) :
    ∀ (a : ℕ) (s : PathState) (j : ℕ) (d : ℚ), j < a → 0 < a →
      (lassoLoop solver c a m s).nActiveArr.getD j d = s.nActiveArr.getD j d := by
  induction m with
  | zero => intro a s j d _ _; rw [lassoLoop_zero]
  | succ m ih =>
    intro a s j d hj ha
    rw [lassoLoop_succ, ih (a + 1) _ j d (by omega) (by omega)]
    rcases Nat.eq_zero_or_pos j with hj0 | hj0
    · subst hj0
      show (if a = 0 ∧ c.screening ≠ NO_SCREENING then
          (((preState solver c a s).nActiveArr.set a ((authOut solver c a s).nActive : ℚ)).set 0 0)
        else
          (preState solver c a s).nActiveArr.set a ((authOut solver c a s).nActive : ℚ)).getD 0 d = _
      split
      · rename_i hcase
        omega
      · rw [getD_set_ne _ _ _ _ _ (by omega), preState_nActive]
    · exact step_nActive_getD_ne _ _ _ _ _ _ (by omega) (by omega)

theorem loop_betas_getD_lo (solver : Solver) (c : LoopCtx) (m : ℕ) :
    ∀ (a : ℕ) (s : PathState) (j : ℕ) (d : List ℚ), j < a →
      (lassoLoop solver c a m s).betasArr.getD j d = s.betasArr.getD j d := by
  induction m with
  | zero => intro a s j d _; rw [lassoLoop_zero]
  | succ m ih =>
    intro a s j d hj
    rw [lassoLoop_succ, ih (a + 1) _ j d (by omega),
      step_betas_getD_ne _ _ _ _ _ _ (by omega)]

theorem loop_intercepts_getD_lo (solver : Solver) (c : LoopCtx) (m : ℕ) :
    ∀ (a : ℕ) (s : PathState) (j : ℕ) (d : ℚ), j < a →
      (lassoLoop solver c a m s).interceptsArr.getD j d = s.interceptsArr.getD j d := by
  induction m with
  | zero => intro a s j d _; rw [lassoLoop_zero]
  | succ m ih =>
    intro a s j d hj
    rw [lassoLoop_succ, ih (a + 1) _ j d (by omega),
      step_intercepts_getD_ne _ _ _ _ _ _ (by omega)]

theorem loop_gaps_len (solver : Solver) (c : LoopCtx) (m : ℕ) :
    ∀ (a : ℕ) (s : PathState),
      (lassoLoop solver c a m s).gapsArr.length = s.gapsArr.length := by
  induction m with
  | zero => intro a s; rw [lassoLoop_zero]
  | succ m ih =>
    intro a s
    rw [lassoLoop_succ, ih (a + 1), step_gaps_len]

theorem loop_nActive_len (solver : Solver) (c : LoopCtx) (m : ℕ) :
    ∀ (a : ℕ) (s : PathState),
      (lassoLoop solver c a m s).nActiveArr.length = s.nActiveArr.length := by
  induction m with
  | zero => intro a s; rw [lassoLoop_zero]
  | succ m ih =>
    intro a s
    rw [lassoLoop_succ, ih (a + 1), step_nActive_len]

theorem loop_betas_len (solver : Solver) (c : LoopCtx) (m : ℕ) :
    ∀ (a : ℕ) (s : PathState),
      (lassoLoop solver c a m s).betasArr.length = s.betasArr.length := by
  induction m with
  | zero => intro a s; rw [lassoLoop_zero]
  | succ m ih =>
    intro a s
    rw [lassoLoop_succ, ih (a + 1), step_betas_len]

theorem loop_intercepts_len (solver : Solver) (c : LoopCtx) (m : ℕ) :
    ∀ (a : ℕ) (s : PathState),
      (lassoLoop solver c a m s).interceptsArr.length = s.interceptsArr.length := by
  induction m with
  | zero => intro a s; rw [lassoLoop_zero]
  | succ m ih =>
    intro a s
    rw [lassoLoop_succ, ih (a + 1), step_intercepts_len]

theorem run_decomp (solver : Solver) (c : LoopCtx) (s0 : PathState) (n t : ℕ) (ht : t < n) :
    lassoLoop solver c 0 n s0 =
      lassoLoop solver c (t + 1) (n - t - 1)
        (lassoStep solver c t (lassoLoop solver c 0 t s0)) := by
  have h1 : t + ((n - t - 1) + 1) = n := by omega
  conv_lhs => rw [← h1]
  rw [lassoLoop_split solver c t ((n - t - 1) + 1) 0 s0]
  simp only [Nat.zero_add]
  rw [lassoLoop_succ]

/-! ## Step projections -/

theorem step_gaps_eq (solver : Solver) (c : LoopCtx) (t : ℕ) (s : PathState) :
    (lassoStep solver c t s).gapsArr = s.gapsArr.set t (authOut solver c t s).gap := by
  show (preState solver c t s).gapsArr.set t (authOut solver c t s).gap = _
  rw [preState_gaps]

theorem step_warnings_eq (solver : Solver) (c : LoopCtx) (t : ℕ) (s : PathState) :
    (lassoStep solver c t s).warnings =
      if |(authOut solver c t s).gap| > c.tol then
        s.warnings ++ [(t, (authOut solver c t s).gap, c.eps)]
      else s.warnings := by
  show (if |(authOut solver c t s).gap| > c.tol then
      (preState solver c t s).warnings ++ [(t, (authOut solver c t s).gap, c.eps)]
    else (preState solver c t s).warnings) = _
  simp only [preState_warnings]

theorem step_nActive_eq (solver : Solver) (c : LoopCtx) (t : ℕ) (s : PathState) :
    (lassoStep solver c t s).nActiveArr =
      if t = 0 ∧ c.screening ≠ NO_SCREENING then
        ((s.nActiveArr.set t ((authOut solver c t s).nActive : ℚ)).set 0 0)
      else s.nActiveArr.set t ((authOut solver c t s).nActive : ℚ) := by
  show (if t = 0 ∧ c.screening ≠ NO_SCREENING then
      (((preState solver c t s).nActiveArr.set t ((authOut solver c t s).nActive : ℚ)).set 0 0)
    else
      (preState solver c t s).nActiveArr.set t ((authOut solver c t s).nActive : ℚ)) = _
  simp only [preState_nActive]

theorem step_betas_eq (solver : Solver) (c : LoopCtx) (t : ℕ) (s : PathState) :
    (lassoStep solver c t s).betasArr =
      s.betasArr.set t (authOut solver c t s).state.beta := by
  show (preState solver c t s).betasArr.set t (authOut solver c t s).state.beta = _
  rw [preState_betas]

theorem step_intercepts_eq (solver : Solver) (c : LoopCtx) (t : ℕ) (s : PathState) :
    (lassoStep solver c t s).interceptsArr =
      if c.fitIntercept then
        s.interceptsArr.set t (c.yMean - dot c.XMean (authOut solver c t s).state.beta)
      else s.interceptsArr := by
  show (if c.fitIntercept then
      (preState solver c t s).interceptsArr.set t
        (c.yMean - dot c.XMean (authOut solver c t s).state.beta)
    else (preState solver c t s).interceptsArr) = _
  simp only [preState_intercepts]

theorem step_core_eq (solver : Solver) (c : LoopCtx) (t : ℕ) (s : PathState) :
    (lassoStep solver c t s).core = (authOut solver c t s).state := rfl

/-! ## The loop invariant -/

theorem step_inv (solver : Solver) (c : LoopCtx) (n k : ℕ) (s : PathState)
    (hk : k < n) (h : PathInv c n k s) : PathInv c n (k + 1) (lassoStep solver c k s) := by
  constructor
  · rw [step_gaps_eq, List.length_set, h.lenGaps]
  · rw [step_nActive_eq]
    split
    · rw [List.length_set, List.length_set, h.lenActive]
    · rw [List.length_set, h.lenActive]
  · intro w hw
    rw [step_warnings_eq] at hw
    have hmem : w ∈ s.warnings ∨ w = (k, (authOut solver c k s).gap, c.eps) ∧
        |(authOut solver c k s).gap| > c.tol := by
      split at hw
      · rename_i hg
        rcases List.mem_append.mp hw with hmem | hmem
        · exact Or.inl hmem
        · exact Or.inr ⟨List.mem_singleton.mp hmem, hg⟩
      · exact Or.inl hw
    rcases hmem with hmem | ⟨hmem, hg⟩
    · obtain ⟨he, hk', hgap, habs⟩ := h.warnSound w hmem
      refine ⟨he, by omega, ?_, habs⟩
      rw [step_gaps_eq, getD_set_ne _ _ _ _ _ (by omega)]
      exact hgap
    · subst hmem
      refine ⟨rfl, by omega, ?_, hg⟩
      rw [step_gaps_eq, getD_set_self _ _ _ _ (by rw [h.lenGaps]; omega)]
  · intro t ht hgt
    rw [step_warnings_eq]
    rcases Nat.lt_or_ge t k with htk | htk
    · rw [step_gaps_eq, getD_set_ne _ _ _ _ _ (by omega)] at hgt ⊢
      have := h.warnComplete t htk hgt
      split
      · exact List.mem_append_left _ this
      · exact this
    · have htk' : t = k := by omega
      subst htk'
      rw [step_gaps_eq, getD_set_self _ _ _ _ (by rw [h.lenGaps]; omega)] at hgt ⊢
      rw [if_pos hgt]
      exact List.mem_append_right _ (List.mem_singleton.mpr rfl)
  · intro t ht
    rw [step_nActive_eq]
    split
    · rename_i hcase
      rw [getD_set_ne _ _ _ _ _ (by omega), getD_set_ne _ _ _ _ _ (by omega)]
      exact h.activeHi t (by omega)
    · rw [getD_set_ne _ _ _ _ _ (by omega)]
      exact h.activeHi t (by omega)

theorem loop_inv (solver : Solver) (c : LoopCtx) (n : ℕ) :
    ∀ (m k : ℕ) (s : PathState), k + m ≤ n → PathInv c n k s →
      PathInv c n (k + m) (lassoLoop solver c k m s) := by
  intro m
  induction m with
  | zero =>
    intro k s _ h
    rw [lassoLoop_zero]
    simpa using h
  | succ m ih =>
    intro k s hkm h
    have step := step_inv solver c n k s (by omega) h
    have := ih (k + 1) (lassoStep solver c k s) (by omega) step
    rw [lassoLoop_succ]
    have h2 : k + (m + 1) = k + 1 + m := by omega
    rw [h2]
    exact this

theorem pathInit_inv (c : LoopCtx) (X : List (List ℚ)) (y : List ℚ)
    (lambdas : LambdasArg) (betaInit : Option (List ℚ)) (fitIntercept isSparse : Bool) :
    PathInv c (normalizeLambdas lambdas).length 0
      (pathInit X y lambdas betaInit fitIntercept isSparse) := by
  constructor
  · simp [pathInit]
  · simp [pathInit]
  · intro w hw
    simp [pathInit] at hw
  · intro t ht
    omega
  · intro t _
    show (List.replicate (normalizeLambdas lambdas).length (0 : ℚ)).getD t 0 = 0
    exact getD_replicate_zero _ _

/-! ## Per-entry facts about the call log -/

theorem stepEntries_good (solver : Solver) (c : LoopCtx) (t : ℕ) (s : PathState) :
    ∀ e ∈ stepEntries solver c t s,
      e.call.tol = c.tol ∧ e.out = solver e.call e.input := by
  intro e he
  unfold stepEntries preEntries at he
  rcases List.mem_append.mp he with h | h
  · split at h
    · have := List.mem_singleton.mp h
      subst this
      exact ⟨rfl, rfl⟩
    · simp at h
  · have := List.mem_singleton.mp h
    subst this
    exact ⟨rfl, rfl⟩

theorem loop_log_good (solver : Solver) (c : LoopCtx) (m : ℕ) :
    ∀ (a : ℕ) (s : PathState),
      (∀ e ∈ s.callLog, e.call.tol = c.tol ∧ e.out = solver e.call e.input) →
      ∀ e ∈ (lassoLoop solver c a m s).callLog,
        e.call.tol = c.tol ∧ e.out = solver e.call e.input := by
  induction m with
  | zero =>
    intro a s hs
    rw [lassoLoop_zero]
    exact hs
  | succ m ih =>
    intro a s hs
    rw [lassoLoop_succ]
    refine ih (a + 1) (lassoStep solver c a s) ?_
    intro e he
    rw [step_callLog] at he
    rcases List.mem_append.mp he with h | h
    · exact hs e h
    · exact stepEntries_good solver c a s e h

/-! ## The first and last solver calls of one iteration -/

theorem stepEntries_head (solver : Solver) (c : LoopCtx) (t : ℕ) (s : PathState) :
    ∃ e rest, stepEntries solver c t s = e :: rest ∧ e.idx = t ∧
      e.input.beta = s.core.beta ∧
      (awsActive c t = true → e.input = { s.core with disabled := preMask c t s }) := by
  unfold stepEntries preEntries
  by_cases haws : awsActive c t = true
  · by_cases hrun : preRun c t s = true
    · exact ⟨probeEntry solver c t s, [authEntry solver c t s],
        by simp [haws, hrun], rfl, rfl, fun _ => rfl⟩
    · have hrun' : preRun c t s = false := by simpa using hrun
      refine ⟨authEntry solver c t s, [], by simp [haws, hrun'], rfl, ?_, ?_⟩
      · show (preState solver c t s).core.beta = s.core.beta
        exact preState_core_beta _ _ _ _ (by simp [hrun'])
      · intro _
        show (preState solver c t s).core = _
        simp [preState, haws, hrun']
  · have haws' : awsActive c t = false := by simpa using haws
    refine ⟨authEntry solver c t s, [], by simp [haws'], rfl, ?_, ?_⟩
    · show (preState solver c t s).core.beta = s.core.beta
      exact preState_core_beta _ _ _ _ (by simp [haws'])
    · intro hcontra
      rw [haws'] at hcontra
      exact absurd hcontra (by simp)

/-- The structure of a full path run around lambda index `t`: the call log
splits as calls of earlier indices, then the authoritative call at `t`, then
calls of later indices; the diagnostic arrays hold at index `t` exactly what
the authoritative call at `t` produced (with the index-0 screening override);
and the first solver call of index `t + 1`, when there is one, starts from
the coefficient vector the authoritative call at `t` produced. -/
theorem run_auth_at (solver : Solver) (c : LoopCtx) (s0 : PathState) (n t : ℕ)
    (ht : t < n) (hlog : s0.callLog = [])
    (hg : s0.gapsArr.length = n) (hb : s0.betasArr.length = n)
    (ha : s0.nActiveArr.length = n) (hi : s0.interceptsArr.length = n) :
    ∃ pre post,
      (lassoLoop solver c 0 n s0).callLog =
        pre ++ authEntry solver c t (lassoLoop solver c 0 t s0) :: post ∧
      (∀ e ∈ pre, e.idx ≤ t) ∧ (∀ e ∈ post, t < e.idx) ∧
      (lassoLoop solver c 0 n s0).gapsArr.getD t 0 =
        (authEntry solver c t (lassoLoop solver c 0 t s0)).out.gap ∧
      (lassoLoop solver c 0 n s0).betasArr.getD t [] =
        (authEntry solver c t (lassoLoop solver c 0 t s0)).out.state.beta ∧
      (lassoLoop solver c 0 n s0).nActiveArr.getD t 0 =
        (if t = 0 ∧ c.screening ≠ NO_SCREENING then 0
         else ((authEntry solver c t (lassoLoop solver c 0 t s0)).out.nActive : ℚ)) ∧
      (c.fitIntercept = true →
        (lassoLoop solver c 0 n s0).interceptsArr.getD t 0 =
          c.yMean - dot c.XMean
            (authEntry solver c t (lassoLoop solver c 0 t s0)).out.state.beta) ∧
      (t + 1 < n → ∃ e2 rest, post = e2 :: rest ∧ e2.idx = t + 1 ∧
        e2.input.beta =
          (authEntry solver c t (lassoLoop solver c 0 t s0)).out.state.beta) := by
  have hrun := run_decomp solver c s0 n t ht
  obtain ⟨l0, hl0, hl0b, _⟩ := lassoLoop_log solver c t 0 s0
  obtain ⟨l1, hl1, hl1b, hl1ne⟩ := lassoLoop_log solver c (n - t - 1) (t + 1)
    (lassoStep solver c t (lassoLoop solver c 0 t s0))
  have hstep := step_callLog solver c t (lassoLoop solver c 0 t s0)
  have hsplit : (lassoLoop solver c 0 n s0).callLog =
      (l0 ++ preEntries solver c t (lassoLoop solver c 0 t s0)) ++
        authEntry solver c t (lassoLoop solver c 0 t s0) :: l1 := by
    rw [hrun, hl1, hstep, hl0, hlog]
    show ([] ++ l0) ++ stepEntries solver c t (lassoLoop solver c 0 t s0) ++ l1 = _
    rw [stepEntries]
    simp [List.append_assoc]
  refine ⟨l0 ++ preEntries solver c t (lassoLoop solver c 0 t s0), l1, hsplit, ?_, ?_, ?_, ?_, ?_, ?_, ?_⟩
  · intro e he
    rcases List.mem_append.mp he with h | h
    · have := hl0b e h
      omega
    · have : e ∈ stepEntries solver c t (lassoLoop solver c 0 t s0) :=
        List.mem_append_left _ h
      have := stepEntries_idx solver c t _ e this
      omega
  · intro e he
    have := hl1b e he
    omega
  · rw [hrun, loop_gaps_getD_lo solver c _ _ _ t 0 (by omega), step_gaps_eq]
    exact getD_set_self _ _ _ _ (by rw [loop_gaps_len, hg]; omega)
  · rw [hrun, loop_betas_getD_lo solver c _ _ _ t [] (by omega), step_betas_eq]
    exact getD_set_self _ _ _ _ (by rw [loop_betas_len, hb]; omega)
  · rw [hrun, loop_nActive_getD_lo solver c _ _ _ t 0 (by omega) (by omega), step_nActive_eq]
    split
    · rename_i hcase
      have ht0 : t = 0 := hcase.1
      subst ht0
      exact getD_set_self _ _ _ _
        (by rw [List.length_set, loop_nActive_len, ha]; omega)
    · exact getD_set_self _ _ _ _ (by rw [loop_nActive_len, ha]; omega)
  · intro hfit
    rw [hrun, loop_intercepts_getD_lo solver c _ _ _ t 0 (by omega), step_intercepts_eq,
      if_pos hfit]
    exact getD_set_self _ _ _ _ (by rw [loop_intercepts_len, hi]; omega)
  · intro ht1
    have hm : n - t - 1 = (n - t - 2) + 1 := by omega
    obtain ⟨e2, rest2, hhead, hidx2, hbeta2, _⟩ :=
      stepEntries_head solver c (t + 1) (lassoStep solver c t (lassoLoop solver c 0 t s0))
    obtain ⟨l2, hl2, _, _⟩ := lassoLoop_log solver c (n - t - 2) (t + 2)
      (lassoStep solver c (t + 1) (lassoStep solver c t (lassoLoop solver c 0 t s0)))
    have hl1eq : l1 = stepEntries solver c (t + 1)
        (lassoStep solver c t (lassoLoop solver c 0 t s0)) ++ l2 := by
      have h1 : lassoLoop solver c (t + 1) (n - t - 1)
          (lassoStep solver c t (lassoLoop solver c 0 t s0)) =
          lassoLoop solver c (t + 2) (n - t - 2)
            (lassoStep solver c (t + 1)
              (lassoStep solver c t (lassoLoop solver c 0 t s0))) := by
        rw [hm, lassoLoop_succ]
      have h2 := hl1
      rw [h1, hl2, step_callLog] at h2
      rw [List.append_assoc] at h2
      exact (List.append_cancel_left h2).symm
    refine ⟨e2, rest2 ++ l2, ?_, hidx2, ?_⟩
    · rw [hl1eq, hhead]
      simp
    · rw [hbeta2, step_core_eq]
      rfl

/-! ## Connective facts -/

theorem normalize_ndarray_scalars (l : List ℚ) :
    (normalizeLambdas (LambdasArg.ndarray l)).map entryScalar = l := by
  induction l with
  | nil => rfl
  | cons x xs ih =>
    show (List.map entryScalar (LambdaEntry.scalar x :: xs.map LambdaEntry.scalar)) = x :: xs
    rw [List.map_cons]
    exact congrArg (x :: ·) ih

theorem normalize_ndarray_length (l : List ℚ) :
    (normalizeLambdas (LambdasArg.ndarray l)).length = l.length := by
  simp [normalizeLambdas]

theorem pathInit_log (X : List (List ℚ)) (y : List ℚ) (lambdas : LambdasArg)
    (betaInit : Option (List ℚ)) (fitIntercept isSparse : Bool) :
    (pathInit X y lambdas betaInit fitIntercept isSparse).callLog = [] := rfl

theorem pathInit_gaps_len (X : List (List ℚ)) (y : List ℚ) (lambdas : LambdasArg)
    (betaInit : Option (List ℚ)) (fitIntercept isSparse : Bool) :
    (pathInit X y lambdas betaInit fitIntercept isSparse).gapsArr.length =
      (normalizeLambdas lambdas).length := by
  simp [pathInit]

theorem pathInit_betas_len (X : List (List ℚ)) (y : List ℚ) (lambdas : LambdasArg)
    (betaInit : Option (List ℚ)) (fitIntercept isSparse : Bool) :
    (pathInit X y lambdas betaInit fitIntercept isSparse).betasArr.length =
      (normalizeLambdas lambdas).length := by
  simp [pathInit]

theorem pathInit_nActive_len (X : List (List ℚ)) (y : List ℚ) (lambdas : LambdasArg)
    (betaInit : Option (List ℚ)) (fitIntercept isSparse : Bool) :
    (pathInit X y lambdas betaInit fitIntercept isSparse).nActiveArr.length =
      (normalizeLambdas lambdas).length := by
  simp [pathInit]

theorem pathInit_intercepts_len (X : List (List ℚ)) (y : List ℚ) (lambdas : LambdasArg)
    (betaInit : Option (List ℚ)) (fitIntercept isSparse : Bool) :
    (pathInit X y lambdas betaInit fitIntercept isSparse).interceptsArr.length =
      (normalizeLambdas lambdas).length := by
  simp [pathInit]

theorem run_head (solver : Solver) (c : LoopCtx) (s0 : PathState) (n : ℕ)
    (hn : 0 < n) (hlog : s0.callLog = []) :
    ∃ post, (lassoLoop solver c 0 n s0).callLog = authEntry solver c 0 s0 :: post := by
  have hrun := run_decomp solver c s0 n 0 hn
  rw [lassoLoop_zero] at hrun
  obtain ⟨l1, hl1, _, _⟩ := lassoLoop_log solver c (n - 0 - 1) (0 + 1)
    (lassoStep solver c 0 s0)
  refine ⟨l1, ?_⟩
  rw [hrun, hl1, step_callLog, hlog]
  show ([] ++ stepEntries solver c 0 s0) ++ l1 = _
  rw [stepEntries]
  have hpre : preEntries solver c 0 s0 = [] := by
    simp [preEntries, awsActive]
  rw [hpre]
  simp

/-! ## Claim theorems -/

/-- C10: whenever the `lambdas` argument is not a numpy ndarray — a plain
scalar or a Python list — `lasso_path` wraps it as the one-element array
`np.array([lambdas])` and therefore computes a path of length 1; in
particular a Python list of k > 1 lambdas is not expanded into k path
points, while an ndarray of k lambdas gives a path of length k. -/
theorem lasso_path_wraps_non_ndarray_to_length_one (solver : Solver)
    (X : List (List ℚ)) (y : List ℚ) (betaInit : Option (List ℚ))
    (fitIntercept : Bool) (eps : ℚ) (maxIter screening f : ℕ)
    (gapAWS strongAWS isSparse : Bool) :
    (∀ x : ℚ, (lasso_path solver X y (LambdasArg.scalar x) betaInit fitIntercept eps
      maxIter screening f gapAWS strongAWS isSparse).gaps.length = 1) ∧
    (∀ l : List ℚ, (lasso_path solver X y (LambdasArg.pylist l) betaInit fitIntercept eps
      maxIter screening f gapAWS strongAWS isSparse).gaps.length = 1) ∧
    (∀ l : List ℚ, (lasso_path solver X y (LambdasArg.ndarray l) betaInit fitIntercept eps
      maxIter screening f gapAWS strongAWS isSparse).gaps.length = l.length) := by
  refine ⟨?_, ?_, ?_⟩
  · intro x
    show (lassoLoop solver _ 0 (normalizeLambdas (LambdasArg.scalar x)).length
      (pathInit X y (LambdasArg.scalar x) betaInit fitIntercept isSparse)).gapsArr.length = 1
    rw [loop_gaps_len, pathInit_gaps_len]
    rfl
  · intro l
    show (lassoLoop solver _ 0 (normalizeLambdas (LambdasArg.pylist l)).length
      (pathInit X y (LambdasArg.pylist l) betaInit fitIntercept isSparse)).gapsArr.length = 1
    rw [loop_gaps_len, pathInit_gaps_len]
    rfl
  · intro l
    show (lassoLoop solver _ 0 (normalizeLambdas (LambdasArg.ndarray l)).length
      (pathInit X y (LambdasArg.ndarray l) betaInit fitIntercept isSparse)).gapsArr.length = l.length
    rw [loop_gaps_len, pathInit_gaps_len]
    exact normalize_ndarray_length l

/-- C8: on every path fit, the very first solver invocation is the
authoritative solve of lambda index 0 (no pre-solve ever runs at t = 0), and
the reported active-feature count at path index 0 equals 0 whenever the
screening mode differs from `NO_SCREENING` — overriding whatever count that
first solve returned — while with `NO_SCREENING` the count returned by the
solver at index 0 is kept. -/
theorem lasso_path_forces_zero_active_at_first_lambda (solver : Solver)
    (X : List (List ℚ)) (y : List ℚ) (ls : List ℚ) (betaInit : Option (List ℚ))
    (fitIntercept : Bool) (eps : ℚ) (maxIter screening f : ℕ)
    (gapAWS strongAWS isSparse : Bool) (hn : 0 < ls.length) :
    ∃ e post,
      (lasso_path solver X y (LambdasArg.ndarray ls) betaInit fitIntercept eps maxIter
        screening f gapAWS strongAWS isSparse).callLog = e :: post ∧
      e.idx = 0 ∧ e.call.wstrPlus = false ∧
      (lasso_path solver X y (LambdasArg.ndarray ls) betaInit fitIntercept eps maxIter
        screening f gapAWS strongAWS isSparse).nActive.getD 0 0 =
        (if screening ≠ NO_SCREENING then 0 else (e.out.nActive : ℚ)) := by
  have hn' : 0 < (normalizeLambdas (LambdasArg.ndarray ls)).length := by
    rw [normalize_ndarray_length]
    exact hn
  obtain ⟨post, hpost⟩ := run_head solver
    (pathCtx X y (LambdasArg.ndarray ls) fitIntercept eps maxIter screening f gapAWS strongAWS)
    (pathInit X y (LambdasArg.ndarray ls) betaInit fitIntercept isSparse)
    (normalizeLambdas (LambdasArg.ndarray ls)).length hn' rfl
  obtain ⟨pre2, post2, _, _, _, _, _, hnact, _, _⟩ := run_auth_at solver
    (pathCtx X y (LambdasArg.ndarray ls) fitIntercept eps maxIter screening f gapAWS strongAWS)
    (pathInit X y (LambdasArg.ndarray ls) betaInit fitIntercept isSparse)
    (normalizeLambdas (LambdasArg.ndarray ls)).length 0 hn' rfl
    (pathInit_gaps_len X y _ betaInit fitIntercept isSparse)
    (pathInit_betas_len X y _ betaInit fitIntercept isSparse)
    (pathInit_nActive_len X y _ betaInit fitIntercept isSparse)
    (pathInit_intercepts_len X y _ betaInit fitIntercept isSparse)
  rw [lassoLoop_zero] at hnact
  refine ⟨authEntry solver
    (pathCtx X y (LambdasArg.ndarray ls) fitIntercept eps maxIter screening f gapAWS strongAWS)
    0 (pathInit X y (LambdasArg.ndarray ls) betaInit fitIntercept isSparse), post, ?_, rfl, rfl, ?_⟩
  · exact hpost
  · show (lassoLoop solver
      (pathCtx X y (LambdasArg.ndarray ls) fitIntercept eps maxIter screening f gapAWS strongAWS)
      0 (normalizeLambdas (LambdasArg.ndarray ls)).length
      (pathInit X y (LambdasArg.ndarray ls) betaInit fitIntercept isSparse)).nActiveArr.getD 0 0 = _
    rw [hnact]
    by_cases hscr : screening = NO_SCREENING
    · rw [if_neg (fun h => h.2 hscr), if_neg (fun h => h hscr)]
    · rw [if_pos ⟨rfl, fun h => hscr h⟩, if_pos (fun h => hscr h)]

/-- C8 witness: the theorem applied to a concrete one-lambda problem. -/
theorem lasso_path_forces_zero_active_at_first_lambda_witness :
    ∃ e post,
      (lasso_path zeroSolver [[1]] [1] (LambdasArg.ndarray [1]) none false 1 3 GAPSAFE 10
        false true false).callLog = e :: post ∧
      e.idx = 0 ∧ e.call.wstrPlus = false ∧
      (lasso_path zeroSolver [[1]] [1] (LambdasArg.ndarray [1]) none false 1 3 GAPSAFE 10
        false true false).nActive.getD 0 0 =
        (if GAPSAFE ≠ NO_SCREENING then 0 else (e.out.nActive : ℚ)) :=
  lasso_path_forces_zero_active_at_first_lambda zeroSolver [[1]] [1] [1] none false 1 3
    GAPSAFE 10 false true false (by decide)

/-- C4: on every path fit with `strong_active_warm_start` enabled and for
every lambda index t > 0, the first solver call made at index t — before
any solver work at lambda_t — receives a disabled-features mask equal to
exactly the set of features j whose previous-lambda correlation satisfies
`|XTR_j| < 2 * lambda_t - lambda_{t-1}` (the call's input `XTR` is the
correlation vector carried over from the previous lambda's solves). -/
theorem strong_warm_start_seeds_exact_mask (solver : Solver)
    (X : List (List ℚ)) (y : List ℚ) (ls : List ℚ) (betaInit : Option (List ℚ))
    (fitIntercept : Bool) (eps : ℚ) (maxIter screening f : ℕ)
    (gapAWS isSparse : Bool) (t : ℕ) (ht : 0 < t) (htn : t < ls.length) :
    ∃ pre e post,
      (lasso_path solver X y (LambdasArg.ndarray ls) betaInit fitIntercept eps maxIter
        screening f gapAWS true isSparse).callLog = pre ++ e :: post ∧
      (∀ x ∈ pre, x.idx < t) ∧ e.idx = t ∧
      e.input.disabled = strongMask e.input.XTR (2 * ls.getD t 0 - ls.getD (t - 1) 0) := by
  have htn' : t < (normalizeLambdas (LambdasArg.ndarray ls)).length := by
    rw [normalize_ndarray_length]
    exact htn
  have hrun := run_decomp solver
    (pathCtx X y (LambdasArg.ndarray ls) fitIntercept eps maxIter screening f gapAWS true)
    (pathInit X y (LambdasArg.ndarray ls) betaInit fitIntercept isSparse)
    (normalizeLambdas (LambdasArg.ndarray ls)).length t htn'
  obtain ⟨l0, hl0, hl0b, _⟩ := lassoLoop_log solver
    (pathCtx X y (LambdasArg.ndarray ls) fitIntercept eps maxIter screening f gapAWS true)
    t 0 (pathInit X y (LambdasArg.ndarray ls) betaInit fitIntercept isSparse)
  obtain ⟨l1, hl1, _, _⟩ := lassoLoop_log solver
    (pathCtx X y (LambdasArg.ndarray ls) fitIntercept eps maxIter screening f gapAWS true)
    ((normalizeLambdas (LambdasArg.ndarray ls)).length - t - 1) (t + 1)
    (lassoStep solver
      (pathCtx X y (LambdasArg.ndarray ls) fitIntercept eps maxIter screening f gapAWS true)
      t (lassoLoop solver
        (pathCtx X y (LambdasArg.ndarray ls) fitIntercept eps maxIter screening f gapAWS true)
        0 t (pathInit X y (LambdasArg.ndarray ls) betaInit fitIntercept isSparse)))
  obtain ⟨e, rest, hhead, hidx, _, hinput⟩ := stepEntries_head solver
    (pathCtx X y (LambdasArg.ndarray ls) fitIntercept eps maxIter screening f gapAWS true)
    t (lassoLoop solver
      (pathCtx X y (LambdasArg.ndarray ls) fitIntercept eps maxIter screening f gapAWS true)
      0 t (pathInit X y (LambdasArg.ndarray ls) betaInit fitIntercept isSparse))
  have haws : awsActive
      (pathCtx X y (LambdasArg.ndarray ls) fitIntercept eps maxIter screening f gapAWS true)
      t = true := by
    simp only [awsActive, pathCtx, Bool.true_or, Bool.true_and, Bool.not_eq_true',
      beq_eq_false_iff_ne, ne_eq]
    omega
  have hinp := hinput haws
  have hdis : e.input.disabled = preMask
      (pathCtx X y (LambdasArg.ndarray ls) fitIntercept eps maxIter screening f gapAWS true)
      t (lassoLoop solver
        (pathCtx X y (LambdasArg.ndarray ls) fitIntercept eps maxIter screening f gapAWS true)
        0 t (pathInit X y (LambdasArg.ndarray ls) betaInit fitIntercept isSparse)) := by
    rw [hinp]
  have hxtr : e.input.XTR = (lassoLoop solver
      (pathCtx X y (LambdasArg.ndarray ls) fitIntercept eps maxIter screening f gapAWS true)
      0 t (pathInit X y (LambdasArg.ndarray ls) betaInit fitIntercept isSparse)).core.XTR := by
    rw [hinp]
  have hm : preMask
      (pathCtx X y (LambdasArg.ndarray ls) fitIntercept eps maxIter screening f gapAWS true)
      t (lassoLoop solver
        (pathCtx X y (LambdasArg.ndarray ls) fitIntercept eps maxIter screening f gapAWS true)
        0 t (pathInit X y (LambdasArg.ndarray ls) betaInit fitIntercept isSparse)) =
      strongMask (lassoLoop solver
        (pathCtx X y (LambdasArg.ndarray ls) fitIntercept eps maxIter screening f gapAWS true)
        0 t (pathInit X y (LambdasArg.ndarray ls) betaInit fitIntercept isSparse)).core.XTR
        (2 * (pathCtx X y (LambdasArg.ndarray ls) fitIntercept eps maxIter screening f gapAWS
          true).lams.getD t 0 -
          (pathCtx X y (LambdasArg.ndarray ls) fitIntercept eps maxIter screening f gapAWS
            true).lams.getD (t - 1) 0) := if_pos rfl
  have hlams : (pathCtx X y (LambdasArg.ndarray ls) fitIntercept eps maxIter screening f
      gapAWS true).lams = ls := normalize_ndarray_scalars ls
  refine ⟨l0, e, rest ++ l1, ?_, ?_, hidx, ?_⟩
  · show (lassoLoop solver
      (pathCtx X y (LambdasArg.ndarray ls) fitIntercept eps maxIter screening f gapAWS true)
      0 (normalizeLambdas (LambdasArg.ndarray ls)).length
      (pathInit X y (LambdasArg.ndarray ls) betaInit fitIntercept isSparse)).callLog = _
    rw [hrun, hl1, step_callLog, hl0, pathInit_log, hhead]
    simp only [List.nil_append, List.append_assoc, List.cons_append]
  · intro x hx
    have := hl0b x hx
    omega
  · rw [hdis, hxtr, hm, hlams]

/-- C4 witness: the theorem applied to a concrete two-lambda problem at
index t = 1. -/
theorem strong_warm_start_seeds_exact_mask_witness :
    ∃ pre e post,
      (lasso_path zeroSolver [[1]] [1] (LambdasArg.ndarray [2, 1]) none false 1 3 GAPSAFE 10
        false true false).callLog = pre ++ e :: post ∧
      (∀ x ∈ pre, x.idx < 1) ∧ e.idx = 1 ∧
      e.input.disabled =
        strongMask e.input.XTR (2 * [(2 : ℚ), 1].getD 1 0 - [(2 : ℚ), 1].getD (1 - 1) 0) :=
  strong_warm_start_seeds_exact_mask zeroSolver [[1]] [1] [2, 1] none false 1 3 GAPSAFE 10
    false false 1 (by decide) (by decide)

/-- C3 counterexample: a concrete two-lambda path fit with
`gap_active_warm_start` enabled in which the lambda-0 solve ends with zero
active features (the solver reports 0, and the reported count at index 0 is
0), yet the pre-solve pass at index t = 1 still runs — the log shows a
`wstr_plus=1` probe call at index 1 — contradicting the claim that it is
skipped exactly when the previous lambda ended with zero active features. -/
theorem gap_warm_start_skip_counterexample :
    ((lasso_path zeroSolver [[1]] [1] (LambdasArg.ndarray [2, 1]) none false 1 3 GAPSAFE 10
        true false false).callLog.map (fun e => (e.idx, e.call.wstrPlus)) =
      [(0, false), (1, true), (1, false)]) ∧
    (lasso_path zeroSolver [[1]] [1] (LambdasArg.ndarray [2, 1]) none false 1 3 GAPSAFE 10
        true false false).nActive = [0, 0] := by
  decide

/-- C3 (amended): with `gap_active_warm_start` enabled the pre-solve pass is
never skipped — the skip condition at lines 150-151 reads
`n_active_features[t]`, the not-yet-written entry of the current index,
which still holds its initial value 0, so `0 < n_features` makes
`run_active_warm_start` true at every index t > 0 whatever the previous
lambda's active count was: a probe (`wstr_plus=1`) call occurs at every
such index. -/
theorem gap_warm_start_never_skips (solver : Solver)
    (X : List (List ℚ)) (y : List ℚ) (ls : List ℚ) (betaInit : Option (List ℚ))
    (fitIntercept : Bool) (eps : ℚ) (maxIter screening f : ℕ)
    (strongAWS isSparse : Bool) (t : ℕ) (hF : 0 < (X.headD []).length)
    (ht : 0 < t) (htn : t < ls.length) :
    ∃ e ∈ (lasso_path solver X y (LambdasArg.ndarray ls) betaInit fitIntercept eps maxIter
      screening f true strongAWS isSparse).callLog,
      e.idx = t ∧ e.call.wstrPlus = true := by
  have htn' : t < (normalizeLambdas (LambdasArg.ndarray ls)).length := by
    rw [normalize_ndarray_length]
    exact htn
  have hinv := loop_inv solver
    (pathCtx X y (LambdasArg.ndarray ls) fitIntercept eps maxIter screening f true strongAWS)
    (normalizeLambdas (LambdasArg.ndarray ls)).length t 0
    (pathInit X y (LambdasArg.ndarray ls) betaInit fitIntercept isSparse)
    (by omega)
    (pathInit_inv _ X y (LambdasArg.ndarray ls) betaInit fitIntercept isSparse)
  have hact : (lassoLoop solver
      (pathCtx X y (LambdasArg.ndarray ls) fitIntercept eps maxIter screening f true strongAWS)
      0 t (pathInit X y (LambdasArg.ndarray ls) betaInit fitIntercept isSparse)).nActiveArr.getD
      t 0 = 0 := by
    have := hinv.activeHi t (by omega)
    exact this
  have hrunflag : preRun
      (pathCtx X y (LambdasArg.ndarray ls) fitIntercept eps maxIter screening f true strongAWS)
      t (lassoLoop solver
        (pathCtx X y (LambdasArg.ndarray ls) fitIntercept eps maxIter screening f true strongAWS)
        0 t (pathInit X y (LambdasArg.ndarray ls) betaInit fitIntercept isSparse)) = true := by
    have hgap : (pathCtx X y (LambdasArg.ndarray ls) fitIntercept eps maxIter screening f
        true strongAWS).gapAWS = true := rfl
    rw [preRun, if_pos hgap, hact, decide_eq_true_eq]
    exact_mod_cast hF
  have haws : awsActive
      (pathCtx X y (LambdasArg.ndarray ls) fitIntercept eps maxIter screening f true strongAWS)
      t = true := by
    simp only [awsActive, pathCtx, Bool.or_true, Bool.true_and, Bool.not_eq_true',
      beq_eq_false_iff_ne, ne_eq]
    omega
  have hpre : preEntries solver
      (pathCtx X y (LambdasArg.ndarray ls) fitIntercept eps maxIter screening f true strongAWS)
      t (lassoLoop solver
        (pathCtx X y (LambdasArg.ndarray ls) fitIntercept eps maxIter screening f true strongAWS)
        0 t (pathInit X y (LambdasArg.ndarray ls) betaInit fitIntercept isSparse)) =
      [probeEntry solver
        (pathCtx X y (LambdasArg.ndarray ls) fitIntercept eps maxIter screening f true strongAWS)
        t (lassoLoop solver
          (pathCtx X y (LambdasArg.ndarray ls) fitIntercept eps maxIter screening f true strongAWS)
          0 t (pathInit X y (LambdasArg.ndarray ls) betaInit fitIntercept isSparse))] := by
    have hcond : (awsActive
        (pathCtx X y (LambdasArg.ndarray ls) fitIntercept eps maxIter screening f true strongAWS)
        t && preRun
        (pathCtx X y (LambdasArg.ndarray ls) fitIntercept eps maxIter screening f true strongAWS)
        t (lassoLoop solver
          (pathCtx X y (LambdasArg.ndarray ls) fitIntercept eps maxIter screening f true strongAWS)
          0 t (pathInit X y (LambdasArg.ndarray ls) betaInit fitIntercept isSparse))) = true := by
      rw [haws, hrunflag]
      rfl
    rw [preEntries, if_pos hcond]
  refine ⟨probeEntry solver
    (pathCtx X y (LambdasArg.ndarray ls) fitIntercept eps maxIter screening f true strongAWS)
    t (lassoLoop solver
      (pathCtx X y (LambdasArg.ndarray ls) fitIntercept eps maxIter screening f true strongAWS)
      0 t (pathInit X y (LambdasArg.ndarray ls) betaInit fitIntercept isSparse)), ?_, rfl, rfl⟩
  show _ ∈ (lassoLoop solver
    (pathCtx X y (LambdasArg.ndarray ls) fitIntercept eps maxIter screening f true strongAWS)
    0 (normalizeLambdas (LambdasArg.ndarray ls)).length
    (pathInit X y (LambdasArg.ndarray ls) betaInit fitIntercept isSparse)).callLog
  rw [run_decomp solver _ _ _ t htn']
  apply lassoLoop_log_mono
  rw [step_callLog]
  refine List.mem_append_right _ ?_
  rw [stepEntries, hpre]
  exact List.mem_append_left _ (List.mem_singleton.mpr rfl)

/-- C3 (amended) witness: the theorem applied to a concrete two-lambda
problem at index t = 1. -/
theorem gap_warm_start_never_skips_witness :
    ∃ e ∈ (lasso_path zeroSolver [[1]] [1] (LambdasArg.ndarray [2, 1]) none false 1 3 GAPSAFE
      10 true false false).callLog,
      e.idx = 1 ∧ e.call.wstrPlus = true :=
  gap_warm_start_never_skips zeroSolver [[1]] [1] [2, 1] none false 1 3 GAPSAFE 10 false false
    1 (by decide) (by decide) (by decide)

/-- C5: with the spec-modelled kernel behaviour (`cdLassoSpec`: the compiled
`cd_lasso`, absent from the source tree, resets the disabled-features mask at
the start of each authoritative `wstr_plus=0` solve), every authoritative
solver invocation of a path fit consumes a freshly reset (all-clear) mask:
its recorded output equals the core solver applied to its input state with
the mask cleared, and replacing the incoming mask by any other mask of the
same length leaves the solve's result unchanged — so the previous lambda's
disabled set is never silently carried into a lambda's authoritative solve,
whatever the warm-start toggles are; when `strong_active_warm_start` is on,
the mask is instead freshly recomputed by the strong heuristic before the
probe (see the C4 theorem). -/
theorem auth_solve_ignores_stale_mask (core : Solver)
    (X : List (List ℚ)) (y : List ℚ) (ls : List ℚ) (betaInit : Option (List ℚ))
    (fitIntercept : Bool) (eps : ℚ) (maxIter screening f : ℕ)
    (gapAWS strongAWS isSparse : Bool) (i : ℕ) (e : LogEntry)
    (he : (lasso_path (cdLassoSpec core) X y (LambdasArg.ndarray ls) betaInit fitIntercept
      eps maxIter screening f gapAWS strongAWS isSparse).callLog.get? i = some e)
    (hw : e.call.wstrPlus = false) :
    e.out = core e.call
      { e.input with disabled := List.replicate e.input.disabled.length false } ∧
    ∀ m : List Bool, m.length = e.input.disabled.length →
      cdLassoSpec core e.call { e.input with disabled := m } = e.out := by
  have hmem : e ∈ (lasso_path (cdLassoSpec core) X y (LambdasArg.ndarray ls) betaInit
      fitIntercept eps maxIter screening f gapAWS strongAWS isSparse).callLog :=
    List.get?_mem he
  have hgood := loop_log_good (cdLassoSpec core)
    (pathCtx X y (LambdasArg.ndarray ls) fitIntercept eps maxIter screening f gapAWS strongAWS)
    (normalizeLambdas (LambdasArg.ndarray ls)).length 0
    (pathInit X y (LambdasArg.ndarray ls) betaInit fitIntercept isSparse)
    (fun e' he' => absurd he' (List.not_mem_nil e'))
    e hmem
  have hout := hgood.2
  constructor
  · rw [hout]
    simp [cdLassoSpec, hw]
  · intro m hm
    rw [hout]
    simp [cdLassoSpec, hw, hm]

/-- C5 witness: the theorem applied to the first (authoritative) call of a
concrete one-lambda path fit. -/
theorem auth_solve_ignores_stale_mask_witness :
    ((lasso_path (cdLassoSpec zeroSolver) [[1]] [1] (LambdasArg.ndarray [1]) none false 1 3
        GAPSAFE 10 false true false).callLog.getD 0 dummyEntry).out =
      zeroSolver
        ((lasso_path (cdLassoSpec zeroSolver) [[1]] [1] (LambdasArg.ndarray [1]) none false 1 3
          GAPSAFE 10 false true false).callLog.getD 0 dummyEntry).call
        { ((lasso_path (cdLassoSpec zeroSolver) [[1]] [1] (LambdasArg.ndarray [1]) none false 1
            3 GAPSAFE 10 false true false).callLog.getD 0 dummyEntry).input with
          disabled := List.replicate
            ((lasso_path (cdLassoSpec zeroSolver) [[1]] [1] (LambdasArg.ndarray [1]) none false
              1 3 GAPSAFE 10 false true false).callLog.getD 0
              dummyEntry).input.disabled.length false } ∧
    ∀ m : List Bool, m.length =
        ((lasso_path (cdLassoSpec zeroSolver) [[1]] [1] (LambdasArg.ndarray [1]) none false 1 3
          GAPSAFE 10 false true false).callLog.getD 0 dummyEntry).input.disabled.length →
      cdLassoSpec zeroSolver
        ((lasso_path (cdLassoSpec zeroSolver) [[1]] [1] (LambdasArg.ndarray [1]) none false 1 3
          GAPSAFE 10 false true false).callLog.getD 0 dummyEntry).call
        { ((lasso_path (cdLassoSpec zeroSolver) [[1]] [1] (LambdasArg.ndarray [1]) none false 1
            3 GAPSAFE 10 false true false).callLog.getD 0 dummyEntry).input with
          disabled := m } =
      ((lasso_path (cdLassoSpec zeroSolver) [[1]] [1] (LambdasArg.ndarray [1]) none false 1 3
        GAPSAFE 10 false true false).callLog.getD 0 dummyEntry).out :=
  auth_solve_ignores_stale_mask zeroSolver [[1]] [1] [1] none false 1 3 GAPSAFE 10 false true
    false 0
    ((lasso_path (cdLassoSpec zeroSolver) [[1]] [1] (LambdasArg.ndarray [1]) none false 1 3
      GAPSAFE 10 false true false).callLog.getD 0 dummyEntry)
    (by rfl) (by rfl)

/-- C6: on every path fit, the duality-gap tolerance passed to every solver
invocation (probe and authoritative alike, at every lambda) equals
`eps * norm(y) ** 2` for the y the solver works on (the caller's y array
after the optional in-place centering, returned as `yout`); and a lambda's
solve counts as converged — no warning is emitted for it — exactly when the
absolute value of its final gap is at most this tolerance, which for a
nonnegative gap is exactly `gap ≤ tolerance`. -/
theorem tolerance_is_eps_normSq_y (solver : Solver)
    (X : List (List ℚ)) (y : List ℚ) (ls : List ℚ) (betaInit : Option (List ℚ))
    (fitIntercept : Bool) (eps : ℚ) (maxIter screening f : ℕ)
    (gapAWS strongAWS isSparse : Bool) :
    (∀ e ∈ (lasso_path solver X y (LambdasArg.ndarray ls) betaInit fitIntercept eps maxIter
      screening f gapAWS strongAWS isSparse).callLog,
      e.call.tol = eps * normSq (lasso_path solver X y (LambdasArg.ndarray ls) betaInit
        fitIntercept eps maxIter screening f gapAWS strongAWS isSparse).yout) ∧
    (∀ t, t < ls.length →
      ((∀ g e' : ℚ, (t, g, e') ∉ (lasso_path solver X y (LambdasArg.ndarray ls) betaInit
          fitIntercept eps maxIter screening f gapAWS strongAWS isSparse).warnings) ↔
        |(lasso_path solver X y (LambdasArg.ndarray ls) betaInit fitIntercept eps maxIter
          screening f gapAWS strongAWS isSparse).gaps.getD t 0| ≤
          eps * normSq (lasso_path solver X y (LambdasArg.ndarray ls) betaInit fitIntercept
            eps maxIter screening f gapAWS strongAWS isSparse).yout)) ∧
    (∀ t, t < ls.length →
      0 ≤ (lasso_path solver X y (LambdasArg.ndarray ls) betaInit fitIntercept eps maxIter
        screening f gapAWS strongAWS isSparse).gaps.getD t 0 →
      ((∀ g e' : ℚ, (t, g, e') ∉ (lasso_path solver X y (LambdasArg.ndarray ls) betaInit
          fitIntercept eps maxIter screening f gapAWS strongAWS isSparse).warnings) ↔
        (lasso_path solver X y (LambdasArg.ndarray ls) betaInit fitIntercept eps maxIter
          screening f gapAWS strongAWS isSparse).gaps.getD t 0 ≤
          eps * normSq (lasso_path solver X y (LambdasArg.ndarray ls) betaInit fitIntercept
            eps maxIter screening f gapAWS strongAWS isSparse).yout)) := by
  have htol : (pathCtx X y (LambdasArg.ndarray ls) fitIntercept eps maxIter screening f
      gapAWS strongAWS).tol = eps * normSq (lasso_path solver X y (LambdasArg.ndarray ls)
      betaInit fitIntercept eps maxIter screening f gapAWS strongAWS isSparse).yout := rfl
  have hinv := loop_inv solver
    (pathCtx X y (LambdasArg.ndarray ls) fitIntercept eps maxIter screening f gapAWS strongAWS)
    (normalizeLambdas (LambdasArg.ndarray ls)).length
    (normalizeLambdas (LambdasArg.ndarray ls)).length 0
    (pathInit X y (LambdasArg.ndarray ls) betaInit fitIntercept isSparse)
    (by omega)
    (pathInit_inv _ X y (LambdasArg.ndarray ls) betaInit fitIntercept isSparse)
  have hkey : ∀ t, t < ls.length →
      ((∀ g e' : ℚ, (t, g, e') ∉ (lasso_path solver X y (LambdasArg.ndarray ls) betaInit
          fitIntercept eps maxIter screening f gapAWS strongAWS isSparse).warnings) ↔
        |(lasso_path solver X y (LambdasArg.ndarray ls) betaInit fitIntercept eps maxIter
          screening f gapAWS strongAWS isSparse).gaps.getD t 0| ≤
          eps * normSq (lasso_path solver X y (LambdasArg.ndarray ls) betaInit fitIntercept
            eps maxIter screening f gapAWS strongAWS isSparse).yout) := by
    intro t htn
    have htn' : t < (normalizeLambdas (LambdasArg.ndarray ls)).length := by
      rw [normalize_ndarray_length]
      exact htn
    rw [← htol]
    constructor
    · intro hno
      by_contra habs
      have hgt := lt_of_not_le habs
      have hmem := hinv.warnComplete t (by omega) hgt
      exact hno _ _ hmem
    · intro hle g e' hmem
      obtain ⟨_, _, hgap, habs⟩ := hinv.warnSound (t, g, e') hmem
      rw [hgap] at habs
      exact absurd habs (not_lt_of_le hle)
  refine ⟨?_, hkey, ?_⟩
  · intro e he
    have := (loop_log_good solver
      (pathCtx X y (LambdasArg.ndarray ls) fitIntercept eps maxIter screening f gapAWS
        strongAWS)
      (normalizeLambdas (LambdasArg.ndarray ls)).length 0
      (pathInit X y (LambdasArg.ndarray ls) betaInit fitIntercept isSparse)
      (fun e' he' => absurd he' (List.not_mem_nil e'))
      e he).1
    rw [this, htol]
  · intro t htn hpos
    rw [← abs_of_nonneg hpos]
    exact hkey t htn

/-- C6 witness: the theorem's convergence characterisation applied at path
index 0 of a concrete one-lambda problem. -/
theorem tolerance_is_eps_normSq_y_witness :
    (∀ g e' : ℚ, (0, g, e') ∉ (lasso_path zeroSolver [[1]] [1] (LambdasArg.ndarray [1]) none
        false 1 3 GAPSAFE 10 false true false).warnings) ↔
      |(lasso_path zeroSolver [[1]] [1] (LambdasArg.ndarray [1]) none false 1 3 GAPSAFE 10
        false true false).gaps.getD 0 0| ≤
        1 * normSq (lasso_path zeroSolver [[1]] [1] (LambdasArg.ndarray [1]) none false 1 3
          GAPSAFE 10 false true false).yout :=
  (tolerance_is_eps_normSq_y zeroSolver [[1]] [1] [1] none false 1 3 GAPSAFE 10 false true
    false).2.1 0 (by decide)

/-- C7: on every path fit and at every lambda index t, the authoritative
solve at t is recorded; its gap is what `gaps[t]` stores and its coefficient
vector is stored into output column t unconditionally; whenever that gap
exceeds the tolerance in absolute value, the non-fatal warning `(t, gap,
eps)` — naming the lambda index, the achieved gap and the requested eps — is
on the warnings channel while the column is stored anyway; all solver calls
after the authoritative solve at t belong to later lambda indices (the path
continues regardless), and the first call of index t + 1 starts from exactly
the stored partial coefficient vector, which thus serves as the next
lambda's warm start. -/
theorem nonconvergence_warns_and_path_continues (solver : Solver)
    (X : List (List ℚ)) (y : List ℚ) (ls : List ℚ) (betaInit : Option (List ℚ))
    (fitIntercept : Bool) (eps : ℚ) (maxIter screening f : ℕ)
    (gapAWS strongAWS isSparse : Bool) (t : ℕ) (htn : t < ls.length) :
    ∃ pre e post,
      (lasso_path solver X y (LambdasArg.ndarray ls) betaInit fitIntercept eps maxIter
        screening f gapAWS strongAWS isSparse).callLog = pre ++ e :: post ∧
      e.idx = t ∧ e.call.wstrPlus = false ∧
      (lasso_path solver X y (LambdasArg.ndarray ls) betaInit fitIntercept eps maxIter
        screening f gapAWS strongAWS isSparse).gaps.getD t 0 = e.out.gap ∧
      (lasso_path solver X y (LambdasArg.ndarray ls) betaInit fitIntercept eps maxIter
        screening f gapAWS strongAWS isSparse).betas.getD t [] = e.out.state.beta ∧
      (|e.out.gap| > eps * normSq (lasso_path solver X y (LambdasArg.ndarray ls) betaInit
          fitIntercept eps maxIter screening f gapAWS strongAWS isSparse).yout →
        (t, e.out.gap, eps) ∈ (lasso_path solver X y (LambdasArg.ndarray ls) betaInit
          fitIntercept eps maxIter screening f gapAWS strongAWS isSparse).warnings) ∧
      (∀ x ∈ post, t < x.idx) ∧
      (t + 1 < ls.length → ∃ e2 rest, post = e2 :: rest ∧ e2.idx = t + 1 ∧
        e2.input.beta = e.out.state.beta) := by
  have htn' : t < (normalizeLambdas (LambdasArg.ndarray ls)).length := by
    rw [normalize_ndarray_length]
    exact htn
  obtain ⟨pre, post, hlog, hpre, hpost, hgap, hbeta, _, _, hnext⟩ := run_auth_at solver
    (pathCtx X y (LambdasArg.ndarray ls) fitIntercept eps maxIter screening f gapAWS strongAWS)
    (pathInit X y (LambdasArg.ndarray ls) betaInit fitIntercept isSparse)
    (normalizeLambdas (LambdasArg.ndarray ls)).length t htn' rfl
    (pathInit_gaps_len X y _ betaInit fitIntercept isSparse)
    (pathInit_betas_len X y _ betaInit fitIntercept isSparse)
    (pathInit_nActive_len X y _ betaInit fitIntercept isSparse)
    (pathInit_intercepts_len X y _ betaInit fitIntercept isSparse)
  have hinv := loop_inv solver
    (pathCtx X y (LambdasArg.ndarray ls) fitIntercept eps maxIter screening f gapAWS strongAWS)
    (normalizeLambdas (LambdasArg.ndarray ls)).length
    (normalizeLambdas (LambdasArg.ndarray ls)).length 0
    (pathInit X y (LambdasArg.ndarray ls) betaInit fitIntercept isSparse)
    (by omega)
    (pathInit_inv _ X y (LambdasArg.ndarray ls) betaInit fitIntercept isSparse)
  refine ⟨pre, authEntry solver
    (pathCtx X y (LambdasArg.ndarray ls) fitIntercept eps maxIter screening f gapAWS strongAWS)
    t (lassoLoop solver
      (pathCtx X y (LambdasArg.ndarray ls) fitIntercept eps maxIter screening f gapAWS
        strongAWS)
      0 t (pathInit X y (LambdasArg.ndarray ls) betaInit fitIntercept isSparse)),
    post, hlog, rfl, rfl, hgap, hbeta, ?_, hpost, ?_⟩
  · intro hgt
    have hgt' : |(lassoLoop solver
        (pathCtx X y (LambdasArg.ndarray ls) fitIntercept eps maxIter screening f gapAWS
          strongAWS)
        0 (normalizeLambdas (LambdasArg.ndarray ls)).length
        (pathInit X y (LambdasArg.ndarray ls) betaInit fitIntercept isSparse)).gapsArr.getD
        t 0| > (pathCtx X y (LambdasArg.ndarray ls) fitIntercept eps maxIter screening f
        gapAWS strongAWS).tol := by
      rw [hgap]
      exact hgt
    have hmem := hinv.warnComplete t (by omega) hgt'
    rw [hgap] at hmem
    exact hmem
  · intro h1
    exact hnext (by rw [normalize_ndarray_length]; exact h1)

/-- C7 witness: the theorem applied at index 0 of a concrete two-lambda
problem. -/
theorem nonconvergence_warns_and_path_continues_witness :
    ∃ pre e post,
      (lasso_path zeroSolver [[1]] [1] (LambdasArg.ndarray [2, 1]) none false 1 3 GAPSAFE 10
        false true false).callLog = pre ++ e :: post ∧
      e.idx = 0 ∧ e.call.wstrPlus = false ∧
      (lasso_path zeroSolver [[1]] [1] (LambdasArg.ndarray [2, 1]) none false 1 3 GAPSAFE 10
        false true false).gaps.getD 0 0 = e.out.gap ∧
      (lasso_path zeroSolver [[1]] [1] (LambdasArg.ndarray [2, 1]) none false 1 3 GAPSAFE 10
        false true false).betas.getD 0 [] = e.out.state.beta ∧
      (|e.out.gap| > 1 * normSq (lasso_path zeroSolver [[1]] [1] (LambdasArg.ndarray [2, 1])
          none false 1 3 GAPSAFE 10 false true false).yout →
        (0, e.out.gap, 1) ∈ (lasso_path zeroSolver [[1]] [1] (LambdasArg.ndarray [2, 1]) none
          false 1 3 GAPSAFE 10 false true false).warnings) ∧
      (∀ x ∈ post, 0 < x.idx) ∧
      (0 + 1 < [(2 : ℚ), 1].length → ∃ e2 rest, post = e2 :: rest ∧ e2.idx = 0 + 1 ∧
        e2.input.beta = e.out.state.beta) :=
  nonconvergence_warns_and_path_continues zeroSolver [[1]] [1] [2, 1] none false 1 3 GAPSAFE
    10 false true false 0 (by decide)

/-- C9 counterexample: with `fit_intercept = False` the stored intercept is
the untouched initial 0, not `mean(y) - mean(X) . beta` (here 2): the
claim's final clause, attached to the fit_intercept-false case, fails on the
code — the formula applies only when centering is enabled. -/
theorem centering_intercept_counterexample :
    (lasso_path zeroSolver [[1]] [2] (LambdasArg.ndarray [1]) none false 1 3 GAPSAFE 10 false
      true false).intercepts = [0] ∧
    mean [2] - dot (colMeans [[1]])
      ((lasso_path zeroSolver [[1]] [2] (LambdasArg.ndarray [1]) none false 1 3 GAPSAFE 10
        false true false).betas.getD 0 []) = 2 := by
  have hb : (lasso_path zeroSolver [[1]] [2] (LambdasArg.ndarray [1]) none false 1 3 GAPSAFE
      10 false true false).betas.getD 0 [] = [0] := by decide
  constructor
  · decide
  · rw [hb]
    norm_num [mean, dot, colMeans, col, List.range_succ]

/-- C9 (amended): when `fit_intercept` is true, `lasso_path` subtracts the
mean of y from the caller's y in place and, for dense X, subtracts the
column means from the caller's X in place, once before the path loop, while
a sparse X's stored data is never modified (centering is folded in
analytically via the column-mean vector); when `fit_intercept` is false,
neither X nor y is modified; and when `fit_intercept` is true the intercept
for each lambda t equals `mean(y) - mean(X) . beta_t` for the column-t
coefficients (means of the original, uncentered data). -/
theorem centering_frame_effects (solver : Solver)
    (X : List (List ℚ)) (y : List ℚ) (ls : List ℚ) (betaInit : Option (List ℚ))
    (eps : ℚ) (maxIter screening f : ℕ) (gapAWS strongAWS : Bool) :
    (∀ isSparse, (lasso_path solver X y (LambdasArg.ndarray ls) betaInit true eps maxIter
      screening f gapAWS strongAWS isSparse).yout = y.map (fun v => v - mean y)) ∧
    ((lasso_path solver X y (LambdasArg.ndarray ls) betaInit true eps maxIter screening f
      gapAWS strongAWS false).Xout = centerCols X) ∧
    ((lasso_path solver X y (LambdasArg.ndarray ls) betaInit true eps maxIter screening f
      gapAWS strongAWS true).Xout = X) ∧
    (∀ isSparse, (lasso_path solver X y (LambdasArg.ndarray ls) betaInit false eps maxIter
      screening f gapAWS strongAWS isSparse).Xout = X ∧
      (lasso_path solver X y (LambdasArg.ndarray ls) betaInit false eps maxIter screening f
        gapAWS strongAWS isSparse).yout = y) ∧
    (∀ isSparse (t : ℕ), t < ls.length →
      (lasso_path solver X y (LambdasArg.ndarray ls) betaInit true eps maxIter screening f
        gapAWS strongAWS isSparse).intercepts.getD t 0 =
        mean y - dot (colMeans X)
          ((lasso_path solver X y (LambdasArg.ndarray ls) betaInit true eps maxIter screening
            f gapAWS strongAWS isSparse).betas.getD t [])) := by
  refine ⟨fun _ => rfl, rfl, rfl, fun _ => ⟨rfl, rfl⟩, ?_⟩
  intro isSparse t htn
  have htn' : t < (normalizeLambdas (LambdasArg.ndarray ls)).length := by
    rw [normalize_ndarray_length]
    exact htn
  obtain ⟨_, _, _, _, _, _, hbeta, _, hint, _⟩ := run_auth_at solver
    (pathCtx X y (LambdasArg.ndarray ls) true eps maxIter screening f gapAWS strongAWS)
    (pathInit X y (LambdasArg.ndarray ls) betaInit true isSparse)
    (normalizeLambdas (LambdasArg.ndarray ls)).length t htn' rfl
    (pathInit_gaps_len X y _ betaInit true isSparse)
    (pathInit_betas_len X y _ betaInit true isSparse)
    (pathInit_nActive_len X y _ betaInit true isSparse)
    (pathInit_intercepts_len X y _ betaInit true isSparse)
  have hi := hint rfl
  show (lassoLoop solver
    (pathCtx X y (LambdasArg.ndarray ls) true eps maxIter screening f gapAWS strongAWS)
    0 (normalizeLambdas (LambdasArg.ndarray ls)).length
    (pathInit X y (LambdasArg.ndarray ls) betaInit true isSparse)).interceptsArr.getD t 0 =
    mean y - dot (colMeans X) ((lassoLoop solver
      (pathCtx X y (LambdasArg.ndarray ls) true eps maxIter screening f gapAWS strongAWS)
      0 (normalizeLambdas (LambdasArg.ndarray ls)).length
      (pathInit X y (LambdasArg.ndarray ls) betaInit true isSparse)).betasArr.getD t [])
  rw [hbeta, hi]
  rfl

/-- C9 (amended) witness: the intercept formula applied at index 0 of a
concrete one-lambda centered problem. -/
theorem centering_frame_effects_witness :
    (lasso_path zeroSolver [[1]] [2] (LambdasArg.ndarray [1]) none true 1 3 GAPSAFE 10 false
      true false).intercepts.getD 0 0 =
      mean [2] - dot (colMeans [[1]])
        ((lasso_path zeroSolver [[1]] [2] (LambdasArg.ndarray [1]) none true 1 3 GAPSAFE 10
          false true false).betas.getD 0 []) :=
  (centering_frame_effects zeroSolver [[1]] [2] [1] none 1 3 GAPSAFE 10 false true).2.2.2.2
    false 0 (by decide)

/-- C2 counterexample: two invalid configurations that do not fail fast.
With an empty lambda grid the call completes normally, returning empty
outputs and performing no solver work (nothing failed); with the
non-positive lambda -1 the call proceeds straight into solver work — the
log shows the authoritative solve invoked with lambda = -1 — instead of
failing before any solver work begins. -/
theorem invalid_config_no_failfast_counterexample :
    (lasso_path zeroSolver [[1]] [1] (LambdasArg.ndarray []) none false 1 3 GAPSAFE 10 false
      true false).callLog = [] ∧
    (lasso_path zeroSolver [[1]] [1] (LambdasArg.ndarray []) none false 1 3 GAPSAFE 10 false
      true false).gaps = [] ∧
    ((lasso_path zeroSolver [[1]] [1] (LambdasArg.ndarray [-1]) none false 1 3 GAPSAFE 10
      false true false).callLog.map (fun e => (e.idx, e.call.lam, e.call.wstrPlus))) =
      [(0, -1, false)] := by
  refine ⟨rfl, rfl, ?_⟩
  decide

/-- C2 (amended): `lasso_path` performs no configuration validation.  A call
with an empty lambda grid returns normally with empty output arrays, an
empty warnings channel and zero solver invocations — no failure of any
kind; and a call whose grid holds a non-positive lambda does not fail fast
either: the solver is invoked with that lambda as the authoritative solve
of index 0. -/
theorem lasso_path_no_validation (solver : Solver)
    (X : List (List ℚ)) (y : List ℚ) (betaInit : Option (List ℚ))
    (fitIntercept : Bool) (eps : ℚ) (maxIter screening f : ℕ)
    (gapAWS strongAWS isSparse : Bool) :
    ((lasso_path solver X y (LambdasArg.ndarray []) betaInit fitIntercept eps maxIter
        screening f gapAWS strongAWS isSparse).callLog = [] ∧
      (lasso_path solver X y (LambdasArg.ndarray []) betaInit fitIntercept eps maxIter
        screening f gapAWS strongAWS isSparse).gaps = [] ∧
      (lasso_path solver X y (LambdasArg.ndarray []) betaInit fitIntercept eps maxIter
        screening f gapAWS strongAWS isSparse).betas = [] ∧
      (lasso_path solver X y (LambdasArg.ndarray []) betaInit fitIntercept eps maxIter
        screening f gapAWS strongAWS isSparse).intercepts = [] ∧
      (lasso_path solver X y (LambdasArg.ndarray []) betaInit fitIntercept eps maxIter
        screening f gapAWS strongAWS isSparse).nIters = [] ∧
      (lasso_path solver X y (LambdasArg.ndarray []) betaInit fitIntercept eps maxIter
        screening f gapAWS strongAWS isSparse).nActive = [] ∧
      (lasso_path solver X y (LambdasArg.ndarray []) betaInit fitIntercept eps maxIter
        screening f gapAWS strongAWS isSparse).warnings = []) ∧
    (∀ lam : ℚ, lam ≤ 0 → ∃ e post,
      (lasso_path solver X y (LambdasArg.ndarray [lam]) betaInit fitIntercept eps maxIter
        screening f gapAWS strongAWS isSparse).callLog = e :: post ∧
      e.idx = 0 ∧ e.call.wstrPlus = false ∧ e.call.lam = lam) := by
  constructor
  · exact ⟨rfl, rfl, rfl, rfl, rfl, rfl, rfl⟩
  · intro lam _
    obtain ⟨post, hpost⟩ := run_head solver
      (pathCtx X y (LambdasArg.ndarray [lam]) fitIntercept eps maxIter screening f gapAWS
        strongAWS)
      (pathInit X y (LambdasArg.ndarray [lam]) betaInit fitIntercept isSparse)
      (normalizeLambdas (LambdasArg.ndarray [lam])).length (by simp [normalizeLambdas]) rfl
    refine ⟨authEntry solver
      (pathCtx X y (LambdasArg.ndarray [lam]) fitIntercept eps maxIter screening f gapAWS
        strongAWS)
      0 (pathInit X y (LambdasArg.ndarray [lam]) betaInit fitIntercept isSparse),
      post, hpost, rfl, rfl, ?_⟩
    show ((normalizeLambdas (LambdasArg.ndarray [lam])).map entryScalar).getD 0 0 = lam
    rw [normalize_ndarray_scalars]
    rfl

/-- C2 (amended) witness: the theorem's non-positive-lambda part applied at
lambda = -1 on a concrete problem. -/
theorem lasso_path_no_validation_witness :
    ∃ e post,
      (lasso_path zeroSolver [[1]] [1] (LambdasArg.ndarray [-1]) none false 1 3 GAPSAFE 10
        false true false).callLog = e :: post ∧
      e.idx = 0 ∧ e.call.wstrPlus = false ∧ e.call.lam = -1 :=
  (lasso_path_no_validation zeroSolver [[1]] [1] none false 1 3 GAPSAFE 10 false true
    false).2 (-1) (by norm_num)
